import Mathlib

/-!
# NVEncoder.cpp: buffer pool, ring queue and encode-session lifecycle

A shallow embedding of `SourceCodes/FBCaptureSDK/Video/NVEncoder.cpp`.

* The object `NVEncoder` is a record of its member variables plus a ghost field `trace`, the
  chronological list of calls the object has made to its collaborators (the NVENC wrapper
  `CNvHWEncoder`, Direct3D, the C file API).
* The collaborators are not part of the file.  Their answers are given by an `Env`: every
  answer is a function of the trace up to and including the call being answered, so an `Env`
  is an arbitrary deterministic environment and every theorem quantifies over all of them.
* Pointers and handles are natural numbers, `0` being the null pointer.  A pointer into the
  array `encodeBuffer_` is the index of the slot it points to.
* `assert(0)` is compiled out (release build): the statements following it are executed.
* A member call through `nvHWEncoder_` is recorded in the trace whatever the pointer's value;
  dereferencing a null `nvHWEncoder_` is outside the model.
* The array `encodeBuffer_` is a function on all indices; the bound `MAX_ENCODE_QUEUE` of the
  C array is a parameter of the environment and an access beyond it is outside the model.
* The destructor and `dummyTextureEncoding` are not embedded; no statement below is about them.
* The ring queue class behind `encodeBufferQueue_` is declared outside the file and is
  modelled from the specification.
-/

set_option linter.unusedVariables false

namespace FBCapture.Video

/-- Pointers and handles; `0` is `nullptr` / `NULL`. -/
abbrev Handle := Nat

/-- NVENC status codes, in the order of the table `nvidiaStatus` (lines 16-22). -/
inductive NVENCSTATUS where
  | NV_ENC_SUCCESS
  | NV_ENC_ERR_NO_ENCODE_DEVICE
  | NV_ENC_ERR_UNSUPPORTED_DEVICE
  | NV_ENC_ERR_INVALID_ENCODERDEVICE
  | NV_ENC_ERR_INVALID_DEVICE
  | NV_ENC_ERR_DEVICE_NOT_EXIST
  | NV_ENC_ERR_INVALID_PTR
  | NV_ENC_ERR_INVALID_EVENT
  | NV_ENC_ERR_INVALID_PARAM
  | NV_ENC_ERR_INVALID_CALL
  | NV_ENC_ERR_OUT_OF_MEMORY
  | NV_ENC_ERR_ENCODER_NOT_INITIALIZED
  | NV_ENC_ERR_UNSUPPORTED_PARAM
  | NV_ENC_ERR_LOCK_BUSY
  | NV_ENC_ERR_NOT_ENOUGH_BUFFER
  | NV_ENC_ERR_INVALID_VERSION
  | NV_ENC_ERR_MAP_FAILED
  | NV_ENC_ERR_NEED_MORE_INPUT
  | NV_ENC_ERR_ENCODER_BUSY
  | NV_ENC_ERR_EVENT_NOT_REGISTERD
  | NV_ENC_ERR_GENERIC
  | NV_ENC_ERR_INCOMPATIBLE_CLIENT_KEY
  | NV_ENC_ERR_UNIMPLEMENTED
  | NV_ENC_ERR_RESOURCE_REGISTER_FAILED
  | NV_ENC_ERR_RESOURCE_NOT_REGISTERED
  | NV_ENC_ERR_RESOURCE_NOT_MAPPED
  deriving DecidableEq, Repr

/-- The `FBCAPTURE_STATUS` values that NVEncoder.cpp names.  The enumeration is declared in a
header outside the file; `FBCAPTURE_STATUS_OTHER` stands for its remaining members, which only
`createD3D11Resources` and `mapTexture` (also outside the file) can produce. -/
inductive FBCAPTURE_STATUS where
  | FBCAPTURE_STATUS_OK
  | FBCAPTURE_STATUS_OUTPUT_FILE_OPEN_FAILED
  | FBCAPTURE_STATUS_ENCODE_SET_CONFIG_FAILED
  | FBCAPTURE_STATUS_ENCODE_DESTROY_FAILED
  | FBCAPTURE_STATUS_SYSTEM_ENCODING_TEXTURE_CREATION_FAILED
  | FBCAPTURE_STATUS_UNSUPPORTED_GRAPHICS_CARD_DRIVER_VERSION
  | FBCAPTURE_STATUS_MULTIPLE_ENCODING_SESSION
  | FBCAPTURE_STATUS_UNSUPPORTED_ENCODING_ENVIRONMENT
  | FBCAPTURE_STATUS_INVALID_TEXTURE_RESOLUTION
  | FBCAPTURE_STATUS_ENCODER_CREATION_FAILED
  | FBCAPTURE_STATUS_IO_BUFFER_ALLOCATION_FAILED
  | FBCAPTURE_STATUS_TEXTURE_RESOURCES_COPY_FAILED
  | FBCAPTURE_STATUS_ENCODE_PICTURE_FAILED
  | FBCAPTURE_STATUS_ENCODE_FLUSH_FAILED
  | FBCAPTURE_STATUS_OTHER (code : Nat)
  deriving DecidableEq, Repr

open NVENCSTATUS FBCAPTURE_STATUS

/-- The input half of a slot (`EncodeBuffer::stInputBfr`), with the members the file uses. -/
structure EncodeInputBuffer where
  dwWidth : Nat
  dwHeight : Nat
  pNVSurface : Handle
  hInputSurface : Handle
  bufferFmt : Nat
  deriving DecidableEq, Repr

/-- The output half of a slot (`EncodeBuffer::stOutputBfr`, and the type of `eosOutputBfr_`). -/
structure EncodeOutputBuffer where
  dwBitstreamBufferSize : Nat
  hBitstreamBuffer : Handle
  hOutputEvent : Handle
  bEOSFlag : Bool
  deriving DecidableEq, Repr

/-- One slot of the pool. -/
structure EncodeBuffer where
  stOutputBfr : EncodeOutputBuffer
  stInputBfr : EncodeInputBuffer
  deriving DecidableEq, Repr

/-- An all-zero output buffer (`eosOutputBfr_ = {}`). -/
def EncodeOutputBuffer.zero : EncodeOutputBuffer :=
  { dwBitstreamBufferSize := 0, hBitstreamBuffer := 0, hOutputEvent := 0, bEOSFlag := false }

/-- An all-zero slot (`memset(encodeBuffer_, 0, ...)`). -/
def EncodeBuffer.zero : EncodeBuffer :=
  { stOutputBfr := EncodeOutputBuffer.zero,
    stInputBfr := { dwWidth := 0, dwHeight := 0, pNVSurface := 0, hInputSurface := 0, bufferFmt := 0 } }

/-- The members of `EncodeConfig` that the file reads back or that carry a caller's value.  The
remaining members assigned in `setEncodeConfigs` are header constants handed to the backend
and never read by the file. -/
structure EncodeConfig where
  width : Nat
  height : Nat
  bitrate : Int
  fps : Int
  qp : Nat
  endFrameIdx : Int
  inputFormat : Nat
  fOutput : Handle
  deriving DecidableEq, Repr

/-- The result of `memset(&encodeConfig_, 0, sizeof(EncodeConfig))`. -/
def EncodeConfig.zero : EncodeConfig :=
  { width := 0, height := 0, bitrate := 0, fps := 0, qp := 0, endFrameIdx := 0,
    inputFormat := 0, fOutput := 0 }

/-- The object behind `nvHWEncoder_`; only its member `m_pEncodeAPI` is touched by the file. -/
structure CNvHWEncoder where
  m_pEncodeAPI : Handle
  deriving DecidableEq, Repr

/-- Width and height of `globalTexDesc_`. -/
structure TexDesc where
  Width : Nat
  Height : Nat
  deriving DecidableEq, Repr

/-- The calls the object makes to its collaborators, with the arguments that identify the
resource concerned.  A pointer to a slot is the slot's index (`none` is a null pointer). -/
inductive Event where
  | createD3D11Resources (texturePtr : Handle)
  | fopen (path : String)
  | fclose (f : Handle)
  | remove (path : String)
  | GetPresetGUID
  | CreateEncoder
  | NvEncCreateInputBuffer (width height inputFormat : Nat)
  | NvEncCreateBitstreamBuffer (size : Nat)
  | NvEncRegisterAsyncEvent
  | setTextureDirtyRegion
  | mapTexture
  | NvEncLockInputBuffer (hInputSurface : Handle)
  | memcpy (height : Nat)
  | NvEncUnlockInputBuffer (hInputSurface : Handle)
  | Unmap (texture : Handle)
  | NvEncEncodeFrame (pEncodeBuffer : Option Nat) (width height : Nat)
  | ProcessOutput (pEncodeBuffer : Option Nat)
  | NvEncFlushEncoderQueue (hEOSEvent : Handle)
  | NvEncUnmapInputResource (hInputSurface : Handle)
  | WaitForSingleObject (h : Handle) (ms : Nat)
  | Release (pNVSurface : Handle)
  | NvEncDestroyInputBuffer (hInputSurface : Handle)
  | NvEncDestroyBitstreamBuffer (hBitstreamBuffer : Handle)
  | NvEncUnregisterAsyncEvent (hOutputEvent : Handle)
  | nvCloseFile (hOutputEvent : Handle)
  | NvEncDestroyEncoder
  | Initialize (device : Handle)
  deriving DecidableEq, Repr

/-- The collaborators outside NVEncoder.cpp.  Each answer is a function of the trace that ends
with the call being answered.  `BITSTREAM_BUFFER_SIZE`, `MAX_ENCODE_QUEUE` and
`NV_ENC_BUFFER_FORMAT_ABGR` are header constants.  A creation call returns its status together
with the value it leaves in its out-parameter; `createD3D11Resources` returns its status, the
texture description it leaves in `globalTexDesc_` and the texture it leaves in
`encodingTexure_`; `Initialize` returns its status and the `m_pEncodeAPI` it leaves behind;
`WaitForSingleObject` answers `true` for `WAIT_OBJECT_0`. -/
structure Env where
  BITSTREAM_BUFFER_SIZE : Nat
  MAX_ENCODE_QUEUE : Nat
  NV_ENC_BUFFER_FORMAT_ABGR : Nat
  createD3D11Resources : List Event → FBCAPTURE_STATUS × TexDesc × Handle
  mapTexture : List Event → FBCAPTURE_STATUS
  fopen : List Event → Handle
  Initialize : List Event → NVENCSTATUS × Handle
  CreateEncoder : List Event → NVENCSTATUS
  NvEncCreateInputBuffer : List Event → NVENCSTATUS × Handle
  NvEncCreateBitstreamBuffer : List Event → NVENCSTATUS × Handle
  NvEncRegisterAsyncEvent : List Event → NVENCSTATUS × Handle
  NvEncLockInputBuffer : List Event → NVENCSTATUS
  NvEncUnlockInputBuffer : List Event → NVENCSTATUS
  NvEncEncodeFrame : List Event → NVENCSTATUS
  NvEncFlushEncoderQueue : List Event → NVENCSTATUS
  NvEncUnmapInputResource : List Event → NVENCSTATUS
  NvEncDestroyEncoder : List Event → NVENCSTATUS
  WaitForSingleObject : List Event → Bool

/-- Modelled from the spec: the ring queue behind `encodeBufferQueue_`, whose class is declared
in a header outside NVEncoder.cpp.  Spec section 3 (BufferRingQueue): a fixed capacity `N` set
at pool-allocation time and two cursors, `nextAvailable` and `oldestPending`, over the slot
indices; `pending` counts the slots handed out for submission and not yet drained, which is
how "all slots are Pending/Draining" (`pending = capacity`) and "the queue is empty"
(`pending = 0`) of section 4.1 are decided. -/
structure BufferRingQueue where
  capacity : Nat
  nextAvailable : Nat
  oldestPending : Nat
  pending : Nat
  deriving DecidableEq, Repr

/-- Modelled from the spec: `encodeBufferQueue_.initialize(encodeBuffer_, count)`, absent from
NVEncoder.cpp.  Spec 4.1 `initialize(capacity)`: "allocates `capacity` slots, all `Free`". -/
def BufferRingQueue.init (count : Nat) : BufferRingQueue :=
  { capacity := count, nextAvailable := 0, oldestPending := 0, pending := 0 }

/-- Modelled from the spec: `encodeBufferQueue_.getAvailable()`, absent from NVEncoder.cpp.
Spec 4.1: "returns a `Free` slot and advances `nextAvailable`; returns None if all slots are
`Pending`/`Draining`".  NVEncoder.cpp has no separate `markPending` call: the slot returned
here is the one later returned by `getPending`, so it counts as pending from this call on. -/
def BufferRingQueue.getAvailable (q : BufferRingQueue) : Option Nat × BufferRingQueue :=
  if q.pending = q.capacity then (none, q)
  else (some q.nextAvailable,
        { q with nextAvailable := (q.nextAvailable + 1) % q.capacity, pending := q.pending + 1 })

/-- Modelled from the spec: `encodeBufferQueue_.getPending()`, absent from NVEncoder.cpp.
Spec 4.1 `getOldestPending`: "returns the slot at `oldestPending` ...; None if the queue is
empty", followed by `markDrainedAndFree`: "advances `oldestPending` to the next queued slot"
(NVEncoder.cpp has one call for both). -/
def BufferRingQueue.getPending (q : BufferRingQueue) : Option Nat × BufferRingQueue :=
  if q.pending = 0 then (none, q)
  else (some q.oldestPending,
        { q with oldestPending := (q.oldestPending + 1) % q.capacity, pending := q.pending - 1 })

/-- The slots a queue holds pending, oldest first. -/
def BufferRingQueue.pendingSlots (q : BufferRingQueue) : List Nat :=
  (List.range q.pending).map (fun k => (q.oldestPending + k) % q.capacity)

/-- The member variables of `NVEncoder` used by the file, and the ghost `trace`. -/
structure NVEncoder where
  device_ : Handle
  encodingInitiated_ : Bool
  encodeBufferCount_ : Nat
  eosOutputBfr_ : EncodeOutputBuffer
  encodeBuffer_ : Nat → EncodeBuffer
  encodeBufferQueue_ : BufferRingQueue
  nvHWEncoder_ : Option CNvHWEncoder
  encodeConfig_ : EncodeConfig
  videoFileName_ : String
  globalTexDesc_ : TexDesc
  encodingTexure_ : Handle
  trace : List Event

/-- Record a call to a collaborator. -/
def NVEncoder.log (s : NVEncoder) (e : Event) : NVEncoder :=
  { s with trace := s.trace ++ [e] }

/-- Assign to slot `i` of `encodeBuffer_`. -/
def NVEncoder.setBuf (s : NVEncoder) (i : Nat) (f : EncodeBuffer → EncodeBuffer) : NVEncoder :=
  { s with encodeBuffer_ := fun j => if j = i then f (s.encodeBuffer_ j) else s.encodeBuffer_ j }

/-- Assignment to `encodeBufferQueue_` (the queue after one of its member calls). -/
def NVEncoder.setQueue (s : NVEncoder) (q : BufferRingQueue) : NVEncoder :=
  { s with encodeBufferQueue_ := q }

/-- Assignment `b.stInputBfr.pNVSurface = h`. -/
def EncodeBuffer.set_pNVSurface (h : Handle) (b : EncodeBuffer) : EncodeBuffer :=
  { b with stInputBfr := { b.stInputBfr with pNVSurface := h } }

/-- Assignment `b.stInputBfr.hInputSurface = h`. -/
def EncodeBuffer.set_hInputSurface (h : Handle) (b : EncodeBuffer) : EncodeBuffer :=
  { b with stInputBfr := { b.stInputBfr with hInputSurface := h } }

/-- Assignment `b.stOutputBfr.hBitstreamBuffer = h`. -/
def EncodeBuffer.set_hBitstreamBuffer (h : Handle) (b : EncodeBuffer) : EncodeBuffer :=
  { b with stOutputBfr := { b.stOutputBfr with hBitstreamBuffer := h } }

/-- Assignment `b.stOutputBfr.hOutputEvent = h`. -/
def EncodeBuffer.set_hOutputEvent (h : Handle) (b : EncodeBuffer) : EncodeBuffer :=
  { b with stOutputBfr := { b.stOutputBfr with hOutputEvent := h } }

/-- The constructor (lines 27-35), applied to the object's storage `raw`: members the
constructor does not assign keep what the storage held. -/
def NVEncoder.ctor (env : Env) (device : Handle) (raw : NVEncoder) : NVEncoder :=
  { raw with
    device_ := device
    encodingInitiated_ := false
    encodeBufferCount_ := 1
    eosOutputBfr_ := EncodeOutputBuffer.zero
    encodeBuffer_ := fun i => if i < env.MAX_ENCODE_QUEUE then EncodeBuffer.zero else raw.encodeBuffer_ i }

/-- Body of the loop of `releaseIOBuffers` (lines 129-148) for index `i`.  The input surface
and bitstream handles are tested at slot `i` and cleared through `encodeBuffer_->`, that is at
slot `0`. -/
def releaseIOBuffers_body (i : Nat) (s : NVEncoder) : NVEncoder :=
  let s := if (s.encodeBuffer_ i).stInputBfr.pNVSurface ≠ 0 then
      (s.log (Event.Release (s.encodeBuffer_ i).stInputBfr.pNVSurface)).setBuf i
        (EncodeBuffer.set_pNVSurface 0)
    else s
  let s := if (s.encodeBuffer_ i).stInputBfr.hInputSurface ≠ 0 then
      (s.log (Event.NvEncDestroyInputBuffer (s.encodeBuffer_ i).stInputBfr.hInputSurface)).setBuf 0
        (EncodeBuffer.set_hInputSurface 0)
    else s
  let s := if (s.encodeBuffer_ i).stOutputBfr.hBitstreamBuffer ≠ 0 then
      (s.log (Event.NvEncDestroyBitstreamBuffer (s.encodeBuffer_ i).stOutputBfr.hBitstreamBuffer)).setBuf 0
        (EncodeBuffer.set_hBitstreamBuffer 0)
    else s
  if (s.encodeBuffer_ i).stOutputBfr.hOutputEvent ≠ 0 then
    ((s.log (Event.NvEncUnregisterAsyncEvent (s.encodeBuffer_ i).stOutputBfr.hOutputEvent)).log
        (Event.nvCloseFile (s.encodeBuffer_ i).stOutputBfr.hOutputEvent)).setBuf i
      (EncodeBuffer.set_hOutputEvent 0)
  else s

/-- The loop `for (i = 0; i < n; i++)` of `releaseIOBuffers`. -/
def releaseIOBuffers_loop : Nat → NVEncoder → NVEncoder
  | 0, s => s
  | i + 1, s => releaseIOBuffers_body i (releaseIOBuffers_loop i s)

/-- `NVEncoder::releaseIOBuffers` (lines 127-156). -/
def releaseIOBuffers (s : NVEncoder) : NVEncoder :=
  let s := releaseIOBuffers_loop s.encodeBufferCount_ s
  if s.eosOutputBfr_.hOutputEvent ≠ 0 then
    { (s.log (Event.NvEncUnregisterAsyncEvent s.eosOutputBfr_.hOutputEvent)).log
        (Event.nvCloseFile s.eosOutputBfr_.hOutputEvent) with
      eosOutputBfr_ := { s.eosOutputBfr_ with hOutputEvent := 0 } }
  else s

/-- `NVEncoder::releaseEncodingResources` (lines 100-125). -/
def releaseEncodingResources (env : Env) (s : NVEncoder) : NVEncoder × FBCAPTURE_STATUS :=
  match s.nvHWEncoder_ with
  | none => (s, FBCAPTURE_STATUS_OK)
  | some hw =>
    let s := releaseIOBuffers s
    let s := if s.encodeConfig_.fOutput ≠ 0 then s.log (Event.fclose s.encodeConfig_.fOutput) else s
    if hw.m_pEncodeAPI ≠ 0 then
      let s := s.log Event.NvEncDestroyEncoder
      let nvStatus := env.NvEncDestroyEncoder s.trace
      let s := { s with nvHWEncoder_ := some { hw with m_pEncodeAPI := 0 } }
      if nvStatus ≠ NV_ENC_SUCCESS then (s, FBCAPTURE_STATUS_ENCODE_DESTROY_FAILED)
      else (s, FBCAPTURE_STATUS_OK)
    else (s, FBCAPTURE_STATUS_OK)

/-- The loop `while (encodeBuffer)` of `flushEncoder` (lines 172-180), entered with the pointer
`encodeBuffer` and the current `nvStatus`.  The first argument bounds the number of
iterations; `none` means the bound was reached with the loop still running. -/
def flushEncoder_loop (env : Env) :
    Nat → NVEncoder → Option Nat → NVENCSTATUS → Option (NVEncoder × NVENCSTATUS)
  | _, s, none, nvStatus => some (s, nvStatus)
  | 0, _, some _, _ => none
  | fuel + 1, s, some b, nvStatus =>
    let s := s.log (Event.ProcessOutput (some b))
    let r := s.encodeBufferQueue_.getPending
    let s := s.setQueue r.2
    match r.1 with
    | none => flushEncoder_loop env fuel s none nvStatus
    | some j =>
      if (s.encodeBuffer_ j).stInputBfr.hInputSurface ≠ 0 then
        let s := s.log (Event.NvEncUnmapInputResource (s.encodeBuffer_ j).stInputBfr.hInputSurface)
        let nvStatus := env.NvEncUnmapInputResource s.trace
        let s := s.setBuf j (EncodeBuffer.set_hInputSurface 0)
        flushEncoder_loop env fuel s (some j) nvStatus
      else flushEncoder_loop env fuel s (some j) nvStatus

/-- `NVEncoder::flushEncoder` (lines 158-188).  The loop is given as many iterations as the
queue holds pending slots on entry; the result is `none` only if that is not enough. -/
def flushEncoder (env : Env) (s : NVEncoder) : Option (NVEncoder × NVENCSTATUS) :=
  if s.eosOutputBfr_.hOutputEvent = 0 then some (s, NV_ENC_ERR_INVALID_CALL)
  else
    let s := s.log (Event.NvEncFlushEncoderQueue s.eosOutputBfr_.hOutputEvent)
    let nvStatus := env.NvEncFlushEncoderQueue s.trace
    if nvStatus ≠ NV_ENC_SUCCESS then some (s, nvStatus)
    else
      let fuel := s.encodeBufferQueue_.pending
      let r := s.encodeBufferQueue_.getPending
      let s := s.setQueue r.2
      match flushEncoder_loop env fuel s r.1 nvStatus with
      | none => none
      | some (s, nvStatus) =>
        let s := s.log (Event.WaitForSingleObject s.eosOutputBfr_.hOutputEvent 500)
        if env.WaitForSingleObject s.trace ≠ true then some (s, NV_ENC_ERR_GENERIC)
        else some (s, nvStatus)

/-- Body of the loop of `allocateIOBuffers` (lines 197-220) for index `i`; `some st` in the
second component is the early `return st`. -/
def allocateIOBuffers_body (env : Env) (width height inputFormat : Nat) (i : Nat)
    (s : NVEncoder) : NVEncoder × Option NVENCSTATUS :=
  let s := s.log (Event.NvEncCreateInputBuffer width height inputFormat)
  let r := env.NvEncCreateInputBuffer s.trace
  let s := s.setBuf i (EncodeBuffer.set_hInputSurface r.2)
  if r.1 ≠ NV_ENC_SUCCESS then (s, some r.1)
  else
    let s := s.setBuf i (fun b =>
      { b with stInputBfr :=
          { b.stInputBfr with bufferFmt := inputFormat, dwWidth := width, dwHeight := height } })
    let s := s.log (Event.NvEncCreateBitstreamBuffer env.BITSTREAM_BUFFER_SIZE)
    let r := env.NvEncCreateBitstreamBuffer s.trace
    let s := s.setBuf i (EncodeBuffer.set_hBitstreamBuffer r.2)
    if r.1 ≠ NV_ENC_SUCCESS then (s, some r.1)
    else
      let s := s.setBuf i (fun b =>
        { b with stOutputBfr :=
            { b.stOutputBfr with dwBitstreamBufferSize := env.BITSTREAM_BUFFER_SIZE } })
      let s := s.log Event.NvEncRegisterAsyncEvent
      let r := env.NvEncRegisterAsyncEvent s.trace
      let s := s.setBuf i (EncodeBuffer.set_hOutputEvent r.2)
      if r.1 ≠ NV_ENC_SUCCESS then (s, some r.1) else (s, none)

/-- The loop `for (i = 0; i < n; i++)` of `allocateIOBuffers`; it stops at the first early
return. -/
def allocateIOBuffers_loop (env : Env) (width height inputFormat : Nat) :
    Nat → NVEncoder → NVEncoder × Option NVENCSTATUS
  | 0, s => (s, none)
  | i + 1, s =>
    match allocateIOBuffers_loop env width height inputFormat i s with
    | (s1, some st) => (s1, some st)
    | (s1, none) => allocateIOBuffers_body env width height inputFormat i s1

/-- `NVEncoder::allocateIOBuffers` (lines 190-231). -/
def allocateIOBuffers (env : Env) (width height inputFormat : Nat) (s : NVEncoder) :
    NVEncoder × NVENCSTATUS :=
  let s := s.setQueue (BufferRingQueue.init s.encodeBufferCount_)
  match allocateIOBuffers_loop env width height inputFormat s.encodeBufferCount_ s with
  | (s, some st) => (s, st)
  | (s, none) =>
    let s := { s with eosOutputBfr_ := { s.eosOutputBfr_ with bEOSFlag := true } }
    let s := s.log Event.NvEncRegisterAsyncEvent
    let r := env.NvEncRegisterAsyncEvent s.trace
    let s := { s with eosOutputBfr_ := { s.eosOutputBfr_ with hOutputEvent := r.2 } }
    (s, r.1)

/-- `NVEncoder::copyReources` (lines 233-268).  `mapTexture` is defined outside the file; the
input buffer locked and unlocked is `encodeBuffer_->stInputBfr.hInputSurface`, slot `0`. -/
def copyReources (env : Env) (width height : Nat) (s : NVEncoder) : NVEncoder × NVENCSTATUS :=
  let s := s.log Event.mapTexture
  if env.mapTexture s.trace ≠ FBCAPTURE_STATUS_OK then (s, NV_ENC_ERR_GENERIC)
  else
    let s := s.log (Event.NvEncLockInputBuffer (s.encodeBuffer_ 0).stInputBfr.hInputSurface)
    let nvStatus := env.NvEncLockInputBuffer s.trace
    if nvStatus ≠ NV_ENC_SUCCESS then (s, nvStatus)
    else
      let s := s.log (Event.memcpy height)
      let s := s.log (Event.NvEncUnlockInputBuffer (s.encodeBuffer_ 0).stInputBfr.hInputSurface)
      let nvStatus := env.NvEncUnlockInputBuffer s.trace
      if nvStatus ≠ NV_ENC_SUCCESS then (s, nvStatus)
      else
        let s := s.log (Event.Unmap s.encodingTexure_)
        (s, nvStatus)

/-- `NVEncoder::encodeFrame` (lines 423-445). -/
def encodeFrame (env : Env) (width height inputformat : Nat) (s : NVEncoder) :
    NVEncoder × NVENCSTATUS :=
  let r := s.encodeBufferQueue_.getAvailable
  let s := s.setQueue r.2
  let p : Option Nat × NVEncoder :=
    if r.1 = none then
      let g := s.encodeBufferQueue_.getPending
      let s := s.setQueue g.2
      let s := s.log (Event.ProcessOutput g.1)
      let a := s.encodeBufferQueue_.getAvailable
      (a.1, s.setQueue a.2)
    else (r.1, s)
  let s := p.2.log (Event.NvEncEncodeFrame p.1 width height)
  (s, env.NvEncEncodeFrame s.trace)

/-- `NVEncoder::setEncodeConfigs` (lines 51-94).  `outputFileName` is `c_str()` of a string
and never null. -/
def setEncodeConfigs (env : Env) (fullSavePath : String) (width height : Nat)
    (bitrate fps : Int) (s : NVEncoder) : NVEncoder × FBCAPTURE_STATUS :=
  let s := { s with videoFileName_ := fullSavePath }
  let cfg : EncodeConfig :=
    { EncodeConfig.zero with
      endFrameIdx := 2147483647
      bitrate := bitrate
      fps := fps
      qp := 28
      inputFormat := env.NV_ENC_BUFFER_FORMAT_ABGR
      width := width
      height := height }
  let s := s.log (Event.fopen s.videoFileName_)
  let s := { s with encodeConfig_ := { cfg with fOutput := env.fopen s.trace } }
  if s.encodeConfig_.fOutput = 0 then
    let s := s.log (Event.fclose s.encodeConfig_.fOutput)
    let s := s.log (Event.remove s.videoFileName_)
    (s, FBCAPTURE_STATUS_OUTPUT_FILE_OPEN_FAILED)
  else if s.encodeConfig_.width = 0 ∨ s.encodeConfig_.height = 0 then
    (s, FBCAPTURE_STATUS_ENCODE_SET_CONFIG_FAILED)
  else (s, FBCAPTURE_STATUS_OK)

/-- `NVEncoder::initEncodingSession` (lines 323-347).  A fresh `CNvHWEncoder` has a null
`m_pEncodeAPI`. -/
def initEncodingSession (env : Env) (s : NVEncoder) : NVEncoder × FBCAPTURE_STATUS :=
  let s := if s.nvHWEncoder_ = none then { s with nvHWEncoder_ := some { m_pEncodeAPI := 0 } } else s
  let s := s.log (Event.Initialize s.device_)
  let r := env.Initialize s.trace
  let s := { s with nvHWEncoder_ := some { m_pEncodeAPI := r.2 } }
  if r.1 = NV_ENC_ERR_INVALID_VERSION then
    (s, FBCAPTURE_STATUS_UNSUPPORTED_GRAPHICS_CARD_DRIVER_VERSION)
  else if r.1 = NV_ENC_ERR_OUT_OF_MEMORY then (s, FBCAPTURE_STATUS_MULTIPLE_ENCODING_SESSION)
  else if r.1 ≠ NV_ENC_SUCCESS then (s, FBCAPTURE_STATUS_UNSUPPORTED_ENCODING_ENVIRONMENT)
  else (s, FBCAPTURE_STATUS_OK)

/-- The block `if (!this->encodingInitiated_) { ... }` of `encodeProcess` (lines 366-389);
`some st` in the second component is the early `return st`. -/
def encodeProcess_init (env : Env) (fullSavePath : String) (bitrate fps : Int)
    (s : NVEncoder) : NVEncoder × Option FBCAPTURE_STATUS :=
  if s.encodingInitiated_ = false then
    let r := setEncodeConfigs env fullSavePath s.globalTexDesc_.Width s.globalTexDesc_.Height
      bitrate fps s
    if r.2 ≠ FBCAPTURE_STATUS_OK then (r.1, some r.2)
    else
      let s := r.1.log Event.GetPresetGUID
      let s := s.log Event.CreateEncoder
      let nvStatus := env.CreateEncoder s.trace
      if nvStatus ≠ NV_ENC_SUCCESS then (s, some FBCAPTURE_STATUS_ENCODER_CREATION_FAILED)
      else
        let a := allocateIOBuffers env s.encodeConfig_.width s.encodeConfig_.height
          s.encodeConfig_.inputFormat s
        if a.2 ≠ NV_ENC_SUCCESS then (a.1, some FBCAPTURE_STATUS_IO_BUFFER_ALLOCATION_FAILED)
        else
          let s := a.1.log Event.setTextureDirtyRegion
          ({ s with encodingInitiated_ := true }, none)
  else (s, none)

/-- The call `createD3D11Resources((ID3D11Texture2D*)texturePtr, encodingTexure_)`.  The
function is defined outside the file; what it returns and what it leaves in `globalTexDesc_`
and `encodingTexure_` is the environment's answer. -/
def createD3D11Resources (env : Env) (texturePtr : Handle) (s : NVEncoder) :
    NVEncoder × FBCAPTURE_STATUS :=
  let s := s.log (Event.createD3D11Resources texturePtr)
  let r := env.createD3D11Resources s.trace
  ({ s with globalTexDesc_ := r.2.1, encodingTexure_ := r.2.2 }, r.1)

/-- `NVEncoder::encodeProcess` (lines 349-406). -/
def encodeProcess (env : Env) (texturePtr : Handle) (fullSavePath : String) (bitrate fps : Int)
    (needFlipping : Bool) (s : NVEncoder) : NVEncoder × FBCAPTURE_STATUS :=
  let t := createD3D11Resources env texturePtr s
  let s := t.1
  if t.2 ≠ FBCAPTURE_STATUS_OK then (s, t.2)
  else if s.globalTexDesc_.Width > 4096 ∨ s.globalTexDesc_.Height > 4096 then
    (s, FBCAPTURE_STATUS_INVALID_TEXTURE_RESOLUTION)
  else
    match encodeProcess_init env fullSavePath bitrate fps s with
    | (s, some st) => (s, st)
    | (s, none) =>
      let c := copyReources env s.encodeConfig_.width s.encodeConfig_.height s
      if c.2 ≠ NV_ENC_SUCCESS then (c.1, FBCAPTURE_STATUS_TEXTURE_RESOURCES_COPY_FAILED)
      else
        let e := encodeFrame env c.1.encodeConfig_.width c.1.encodeConfig_.height
          c.1.encodeConfig_.inputFormat c.1
        if e.2 ≠ NV_ENC_SUCCESS then (e.1, FBCAPTURE_STATUS_ENCODE_PICTURE_FAILED)
        else (e.1, FBCAPTURE_STATUS_OK)

/-- `NVEncoder::flushInputTextures` (lines 408-421); `none` only if `flushEncoder` is. -/
def flushInputTextures (env : Env) (s : NVEncoder) : Option (NVEncoder × FBCAPTURE_STATUS) :=
  let s := { s with encodingInitiated_ := false }
  match flushEncoder env s with
  | none => none
  | some (s, nvStatus) =>
    let r := releaseEncodingResources env s
    some (r.1, if nvStatus ≠ NV_ENC_SUCCESS then FBCAPTURE_STATUS_ENCODE_FLUSH_FAILED else r.2)

/-! ### Program points of `encodeProcess`, used to state the theorems -/

/-- The first call of `encodeProcess` gets as far as calling `CreateEncoder` (line 375): the
session is not initiated, the texture was created, its resolution is accepted and
`setEncodeConfigs` succeeded. -/
def reachesCreateEncoder (env : Env) (texturePtr : Handle) (fullSavePath : String)
    (bitrate fps : Int) (s : NVEncoder) : Prop :=
  s.encodingInitiated_ = false ∧
  (createD3D11Resources env texturePtr s).2 = FBCAPTURE_STATUS_OK ∧
  (createD3D11Resources env texturePtr s).1.globalTexDesc_.Width ≤ 4096 ∧
  (createD3D11Resources env texturePtr s).1.globalTexDesc_.Height ≤ 4096 ∧
  (setEncodeConfigs env fullSavePath (createD3D11Resources env texturePtr s).1.globalTexDesc_.Width
    (createD3D11Resources env texturePtr s).1.globalTexDesc_.Height bitrate fps
    (createD3D11Resources env texturePtr s).1).2 = FBCAPTURE_STATUS_OK

/-- The object just after the first call of `encodeProcess` has called `CreateEncoder`
(line 375). -/
def atCreateEncoder (env : Env) (texturePtr : Handle) (fullSavePath : String)
    (bitrate fps : Int) (s : NVEncoder) : NVEncoder :=
  (((setEncodeConfigs env fullSavePath (createD3D11Resources env texturePtr s).1.globalTexDesc_.Width
    (createD3D11Resources env texturePtr s).1.globalTexDesc_.Height bitrate fps
    (createD3D11Resources env texturePtr s).1).1.log Event.GetPresetGUID).log Event.CreateEncoder)

/-- The result of the call of `allocateIOBuffers` on line 381, when the first call of
`encodeProcess` gets there. -/
def atAllocateIOBuffers (env : Env) (texturePtr : Handle) (fullSavePath : String)
    (bitrate fps : Int) (s : NVEncoder) : NVEncoder × NVENCSTATUS :=
  allocateIOBuffers env (atCreateEncoder env texturePtr fullSavePath bitrate fps s).encodeConfig_.width
    (atCreateEncoder env texturePtr fullSavePath bitrate fps s).encodeConfig_.height
    (atCreateEncoder env texturePtr fullSavePath bitrate fps s).encodeConfig_.inputFormat
    (atCreateEncoder env texturePtr fullSavePath bitrate fps s)

/-- Calls that give a resource back: destroy, unregister, close, release, unmap. -/
def Event.isRelease : Event → Bool
  | Event.Release _ => true
  | Event.NvEncDestroyInputBuffer _ => true
  | Event.NvEncDestroyBitstreamBuffer _ => true
  | Event.NvEncUnregisterAsyncEvent _ => true
  | Event.nvCloseFile _ => true
  | Event.NvEncDestroyEncoder => true
  | Event.fclose _ => true
  | Event.Unmap _ => true
  | Event.NvEncUnmapInputResource _ => true
  | _ => false

/-! ### Concrete environments and objects -/

/-- An environment in which every call succeeds: textures are `w` by `h`, a creation call
returns the handle `100 + n` where `n` is the length of the trace that ends with the call, the
output file is the handle `3`. -/
def envOK (w h : Nat) : Env :=
  { BITSTREAM_BUFFER_SIZE := 2097152
    MAX_ENCODE_QUEUE := 32
    NV_ENC_BUFFER_FORMAT_ABGR := 1
    createD3D11Resources := fun _ => (FBCAPTURE_STATUS_OK, { Width := w, Height := h }, 5)
    mapTexture := fun _ => FBCAPTURE_STATUS_OK
    fopen := fun _ => 3
    Initialize := fun _ => (NV_ENC_SUCCESS, 9)
    CreateEncoder := fun _ => NV_ENC_SUCCESS
    NvEncCreateInputBuffer := fun t => (NV_ENC_SUCCESS, 100 + t.length)
    NvEncCreateBitstreamBuffer := fun t => (NV_ENC_SUCCESS, 100 + t.length)
    NvEncRegisterAsyncEvent := fun t => (NV_ENC_SUCCESS, 100 + t.length)
    NvEncLockInputBuffer := fun _ => NV_ENC_SUCCESS
    NvEncUnlockInputBuffer := fun _ => NV_ENC_SUCCESS
    NvEncEncodeFrame := fun _ => NV_ENC_SUCCESS
    NvEncFlushEncoderQueue := fun _ => NV_ENC_SUCCESS
    NvEncUnmapInputResource := fun _ => NV_ENC_SUCCESS
    NvEncDestroyEncoder := fun _ => NV_ENC_SUCCESS
    WaitForSingleObject := fun _ => true }

/-- Zeroed storage for an object. -/
def rawZero : NVEncoder :=
  { device_ := 0
    encodingInitiated_ := false
    encodeBufferCount_ := 0
    eosOutputBfr_ := EncodeOutputBuffer.zero
    encodeBuffer_ := fun _ => EncodeBuffer.zero
    encodeBufferQueue_ := BufferRingQueue.init 0
    nvHWEncoder_ := none
    encodeConfig_ := EncodeConfig.zero
    videoFileName_ := ""
    globalTexDesc_ := { Width := 0, Height := 0 }
    encodingTexure_ := 0
    trace := [] }

/-- A freshly constructed object on device `1`. -/
def fresh : NVEncoder := NVEncoder.ctor (envOK 1920 1080) 1 rawZero

/-- A freshly constructed object after a successful `initEncodingSession`, with the trace
restarted. -/
def session0 : NVEncoder := { (initEncodingSession (envOK 1920 1080) fresh).1 with trace := [] }

/-- As `envOK 1920 1080`, with `CreateEncoder` failing with out-of-memory. -/
def envCreateEncoderOOM : Env :=
  { envOK 1920 1080 with CreateEncoder := fun _ => NV_ENC_ERR_OUT_OF_MEMORY }

/-- As `envOK 1920 1080`, with `NvEncCreateBitstreamBuffer` failing. -/
def envBitstreamFails : Env :=
  { envOK 1920 1080 with NvEncCreateBitstreamBuffer := fun _ => (NV_ENC_ERR_OUT_OF_MEMORY, 0) }

/-- As `envOK 1920 1080`, with `NvEncLockInputBuffer` failing. -/
def envLockBusy : Env :=
  { envOK 1920 1080 with NvEncLockInputBuffer := fun _ => NV_ENC_ERR_LOCK_BUSY }

/-- As `envOK 1920 1080`, with `NvEncUnlockInputBuffer` failing. -/
def envUnlockFails : Env :=
  { envOK 1920 1080 with NvEncUnlockInputBuffer := fun _ => NV_ENC_ERR_INVALID_PARAM }

/-- The trace of `s2` is the trace of `s1` followed by events that all satisfy `P`. -/
def TraceExt (P : Event → Prop) (s1 s2 : NVEncoder) : Prop :=
  ∃ t, s2.trace = s1.trace ++ t ∧ ∀ e ∈ t, P e


instance (env : Env) (texturePtr : Handle) (fullSavePath : String) (bitrate fps : Int)
    (s : NVEncoder) : Decidable (reachesCreateEncoder env texturePtr fullSavePath bitrate fps s) := by
  unfold reachesCreateEncoder
  infer_instance

/-- The object `session0` after a first successful `encodeProcess` (capacity 1, one frame
submitted), with the trace restarted. -/
def session1 : NVEncoder :=
  { (encodeProcess (envOK 1920 1080) 5 "out.h264" 1000000 30 false session0).1 with trace := [] }

/-- The slot pointer handed to `ProcessOutput`, for a `ProcessOutput` call. -/
def Event.drainedSlot : Event → Option (Option Nat)
  | Event.ProcessOutput p => some p
  | _ => none

/-- The slot pointer handed to `NvEncEncodeFrame`, for a `NvEncEncodeFrame` call. -/
def Event.submittedSlot : Event → Option (Option Nat)
  | Event.NvEncEncodeFrame p _ _ => some p
  | _ => none

/-- The slot pointers passed to `ProcessOutput` in a trace, in order. -/
def drained (t : List Event) : List (Option Nat) := t.filterMap Event.drainedSlot

/-- The slot pointers passed to `NvEncEncodeFrame` in a trace, in order. -/
def submitted (t : List Event) : List (Option Nat) := t.filterMap Event.submittedSlot

/-- A ring queue in a consistent state: at least one slot, no more pending slots than slots,
the cursor `oldestPending` inside the ring and `nextAvailable` just past the pending slots. -/
def QueueWF (q : BufferRingQueue) : Prop :=
  1 ≤ q.capacity ∧ q.pending ≤ q.capacity ∧ q.oldestPending < q.capacity ∧
    q.nextAvailable = (q.oldestPending + q.pending) % q.capacity

/-- The calls the object `s` has recorded since it was the object `s0`. -/
def NVEncoder.since (s s0 : NVEncoder) : List Event := s.trace.drop s0.trace.length

/-- The object on which `encodeProcess` calls `copyReources` (line 392), when the call gets
that far: the texture is created, its resolution accepted and the initialisation block left
without an early return. -/
def atCopy (env : Env) (texturePtr : Handle) (fullSavePath : String) (bitrate fps : Int)
    (s : NVEncoder) : Option NVEncoder :=
  let t := createD3D11Resources env texturePtr s
  if t.2 ≠ FBCAPTURE_STATUS_OK then none
  else if t.1.globalTexDesc_.Width > 4096 ∨ t.1.globalTexDesc_.Height > 4096 then none
  else
    match encodeProcess_init env fullSavePath bitrate fps t.1 with
    | (_, some _) => none
    | (c, none) => some c

/-- The object on which `encodeProcess` calls `encodeFrame` (line 399), when the call gets
that far: `copyReources` has returned `NV_ENC_SUCCESS`. -/
def atEncodeFrame (env : Env) (texturePtr : Handle) (fullSavePath : String) (bitrate fps : Int)
    (s : NVEncoder) : Option NVEncoder :=
  match atCopy env texturePtr fullSavePath bitrate fps s with
  | none => none
  | some c =>
    if (copyReources env c.encodeConfig_.width c.encodeConfig_.height c).2 ≠ NV_ENC_SUCCESS
    then none
    else some (copyReources env c.encodeConfig_.width c.encodeConfig_.height c).1

/-- One recording session: `Session env s0 s` says that the object `s` is reached from the
object `s0`, on which no session is initiated, by calls of `encodeProcess` (the only caller of
`copyReources` and `encodeFrame`) with any arguments and any outcome. -/
inductive Session (env : Env) (s0 : NVEncoder) : NVEncoder → Prop where
  | start (h : s0.encodingInitiated_ = false) : Session env s0 s0
  | frame (s : NVEncoder) (texturePtr : Handle) (fullSavePath : String) (bitrate fps : Int)
      (needFlipping : Bool) (h : Session env s0 s) :
      Session env s0 (encodeProcess env texturePtr fullSavePath bitrate fps needFlipping s).1

/-- An event that is neither a submission to `NvEncEncodeFrame` nor a drain by
`ProcessOutput`. -/
def Event.quiet (e : Event) : Prop := e.submittedSlot = none ∧ e.drainedSlot = none

/-- The queue of a session of capacity `C` agrees with the calls `t` recorded since the
session started: it is consistent and has `C` slots, `nextAvailable` is the number of
submissions modulo `C`, `oldestPending` the number of drains modulo `C`, the pending slots
are the submissions not yet drained, and the slots submitted are the slots drained followed
by the pending ones. -/
def QueueInv (C : Nat) (q : BufferRingQueue) (t : List Event) : Prop :=
  QueueWF q ∧ q.capacity = C ∧ q.nextAvailable = (submitted t).length % C ∧
    q.oldestPending = (drained t).length % C ∧
    (submitted t).length = (drained t).length + q.pending ∧
    submitted t = drained t ++ q.pendingSlots.map some

/-- What holds of every object `s` of a session started at `s0`: the slot count is that of
`s0`, the trace extends that of `s0`, and the calls `t` recorded since contain no submission
and no drain as long as the session is not initiated, and agree with the queue once it is. -/
def SessionInv (s0 s : NVEncoder) : Prop :=
  s.encodeBufferCount_ = s0.encodeBufferCount_ ∧
    ∃ t, s.trace = s0.trace ++ t ∧
      (s.encodingInitiated_ = false → submitted t = [] ∧ drained t = []) ∧
      (s.encodingInitiated_ = true → QueueInv s0.encodeBufferCount_ s.encodeBufferQueue_ t)

/-- A freshly constructed object on device `1` after a successful `initEncodingSession`. -/
def ready : NVEncoder := (initEncodingSession (envOK 1920 1080) fresh).1

/-- The object `ready` after one, two and three calls of `encodeProcess` in the environment
`envOK 1920 1080`. -/
def framesOK : Nat → NVEncoder
  | 0 => ready
  | n + 1 => (encodeProcess (envOK 1920 1080) 5 "out.h264" 1000000 30 false (framesOK n)).1

@[simp] theorem log_trace (s : NVEncoder) (e : Event) : (s.log e).trace = s.trace ++ [e] := rfl

/-- The initialisation block of `encodeProcess` never returns the resolution error. -/
theorem encodeProcess_init_status (env : Env) (fullSavePath : String) (bitrate fps : Int)
    (s : NVEncoder) :
    (encodeProcess_init env fullSavePath bitrate fps s).2
      ≠ some FBCAPTURE_STATUS_INVALID_TEXTURE_RESOLUTION := by
  unfold encodeProcess_init setEncodeConfigs
  simp only []
  split_ifs <;> simp

/-- C1: when the texture is created and its width or height exceeds 4096, `encodeProcess`
returns `FBCAPTURE_STATUS_INVALID_TEXTURE_RESOLUTION` straight after `createD3D11Resources`:
that call is the only one made (no `fopen`, no `CreateEncoder`, no `allocateIOBuffers`), and
`encodingInitiated_`, the configuration, the slots, the end-of-stream buffer, the queue and
the encoder pointer are unchanged.  When the texture is created with width and height at most
4096 (4096 by 4096 included) the returned status is never that one. -/
theorem encodeProcess_invalid_resolution (env : Env) (texturePtr : Handle)
    (fullSavePath : String) (bitrate fps : Int) (needFlipping : Bool) (s : NVEncoder)
    (hcreated : (createD3D11Resources env texturePtr s).2 = FBCAPTURE_STATUS_OK) :
    (((createD3D11Resources env texturePtr s).1.globalTexDesc_.Width > 4096 ∨
        (createD3D11Resources env texturePtr s).1.globalTexDesc_.Height > 4096) →
      encodeProcess env texturePtr fullSavePath bitrate fps needFlipping s
          = ((createD3D11Resources env texturePtr s).1,
              FBCAPTURE_STATUS_INVALID_TEXTURE_RESOLUTION) ∧
        (createD3D11Resources env texturePtr s).1.trace
          = s.trace ++ [Event.createD3D11Resources texturePtr] ∧
        (createD3D11Resources env texturePtr s).1.encodingInitiated_ = s.encodingInitiated_ ∧
        (createD3D11Resources env texturePtr s).1.encodeConfig_ = s.encodeConfig_ ∧
        (createD3D11Resources env texturePtr s).1.encodeBuffer_ = s.encodeBuffer_ ∧
        (createD3D11Resources env texturePtr s).1.eosOutputBfr_ = s.eosOutputBfr_ ∧
        (createD3D11Resources env texturePtr s).1.encodeBufferQueue_ = s.encodeBufferQueue_ ∧
        (createD3D11Resources env texturePtr s).1.nvHWEncoder_ = s.nvHWEncoder_) ∧
    (((createD3D11Resources env texturePtr s).1.globalTexDesc_.Width ≤ 4096 ∧
        (createD3D11Resources env texturePtr s).1.globalTexDesc_.Height ≤ 4096) →
      (encodeProcess env texturePtr fullSavePath bitrate fps needFlipping s).2
        ≠ FBCAPTURE_STATUS_INVALID_TEXTURE_RESOLUTION) := by
  constructor
  · intro hbig
    refine ⟨?_, rfl, rfl, rfl, rfl, rfl, rfl, rfl⟩
    unfold encodeProcess
    simp only [hcreated, ne_eq, not_true_eq_false, if_false, hbig, if_true]
  · intro hsmall
    have hnot : ¬ ((createD3D11Resources env texturePtr s).1.globalTexDesc_.Width > 4096 ∨
        (createD3D11Resources env texturePtr s).1.globalTexDesc_.Height > 4096) := by omega
    have hinit := encodeProcess_init_status env fullSavePath bitrate fps
      (createD3D11Resources env texturePtr s).1
    unfold encodeProcess
    simp only [hcreated, ne_eq, not_true_eq_false, if_false, hnot]
    rcases hr : encodeProcess_init env fullSavePath bitrate fps
      (createD3D11Resources env texturePtr s).1 with ⟨s1, _ | st⟩
    · simp only []
      split_ifs <;> simp
    · rw [hr] at hinit
      simpa using hinit

/-- Witness for C1: a 4097 by 100 texture is refused after the single call
`createD3D11Resources`, a 4096 by 4096 texture is not refused. -/
theorem encodeProcess_invalid_resolution_witness :
    (encodeProcess (envOK 4097 100) 5 "out.h264" 1000000 30 false session0).2
        = FBCAPTURE_STATUS_INVALID_TEXTURE_RESOLUTION ∧
      (encodeProcess (envOK 4097 100) 5 "out.h264" 1000000 30 false session0).1.trace
        = [Event.createD3D11Resources 5] ∧
      (encodeProcess (envOK 4096 4096) 5 "out.h264" 1000000 30 false session0).2
        ≠ FBCAPTURE_STATUS_INVALID_TEXTURE_RESOLUTION :=
  ⟨congrArg Prod.snd
      ((encodeProcess_invalid_resolution (envOK 4097 100) 5 "out.h264" 1000000 30 false session0
        (by decide)).1 (by decide)).1,
    by decide,
    (encodeProcess_invalid_resolution (envOK 4096 4096) 5 "out.h264" 1000000 30 false session0
        (by decide)).2 (by decide)⟩

/-- Nothing added. -/
theorem TraceExt.refl (P : Event → Prop) (s : NVEncoder) : TraceExt P s s :=
  ⟨[], by simp, by simp⟩

/-- Extensions compose. -/
theorem TraceExt.trans {P : Event → Prop} {s1 s2 s3 : NVEncoder}
    (h12 : TraceExt P s1 s2) (h23 : TraceExt P s2 s3) : TraceExt P s1 s3 := by
  obtain ⟨t, ht, hP⟩ := h12
  obtain ⟨u, hu, hQ⟩ := h23
  refine ⟨t ++ u, by rw [hu, ht, List.append_assoc], ?_⟩
  intro e he
  rcases List.mem_append.mp he with h | h
  · exact hP e h
  · exact hQ e h

/-- Only the trace matters on the right. -/
theorem TraceExt.of_trace_eq {P : Event → Prop} {s1 s2 s3 : NVEncoder}
    (h : TraceExt P s1 s2) (h3 : s3.trace = s2.trace) : TraceExt P s1 s3 := by
  obtain ⟨t, ht, hP⟩ := h
  exact ⟨t, by rw [h3, ht], hP⟩

/-- Recording one more event that satisfies the predicate. -/
theorem TraceExt.log {P : Event → Prop} {s1 s2 : NVEncoder} (e : Event)
    (h : TraceExt P s1 s2) (he : P e) : TraceExt P s1 (s2.log e) := by
  obtain ⟨t, ht, hP⟩ := h
  refine ⟨t ++ [e], by simp [NVEncoder.log, ht], ?_⟩
  intro x hx
  rcases List.mem_append.mp hx with h | h
  · exact hP x h
  · simp at h; subst h; exact he

/-- Trace after a slot write. -/
@[simp] theorem setBuf_trace (s : NVEncoder) (i : Nat) (f : EncodeBuffer → EncodeBuffer) :
    (s.setBuf i f).trace = s.trace := rfl

/-- Flag after a slot write. -/
@[simp] theorem setBuf_encodingInitiated_ (s : NVEncoder) (i : Nat)
    (f : EncodeBuffer → EncodeBuffer) :
    (s.setBuf i f).encodingInitiated_ = s.encodingInitiated_ := rfl

/-- Flag after recording a call. -/
@[simp] theorem log_encodingInitiated_ (s : NVEncoder) (e : Event) :
    (s.log e).encodingInitiated_ = s.encodingInitiated_ := rfl

/-- An extension given by its list of events. -/
theorem TraceExt.of_eq {P : Event → Prop} {s1 s2 : NVEncoder} (t : List Event)
    (h : s2.trace = s1.trace ++ t) (hP : ∀ e ∈ t, P e) : TraceExt P s1 s2 := ⟨t, h, hP⟩

/-- One iteration of the allocation loop issues no release call and leaves `encodingInitiated_` alone. -/
theorem allocateIOBuffers_body_ext (env : Env) (width height inputFormat i : Nat)
    (s : NVEncoder) :
    TraceExt (fun e => e.isRelease = false) s
        (allocateIOBuffers_body env width height inputFormat i s).1 ∧
      (allocateIOBuffers_body env width height inputFormat i s).1.encodingInitiated_
        = s.encodingInitiated_ := by
  unfold allocateIOBuffers_body
  simp only []
  split_ifs
  · refine ⟨TraceExt.of_eq [Event.NvEncCreateInputBuffer width height inputFormat] ?_ ?_, ?_⟩
    · simp
    · simp [Event.isRelease]
    · simp
  · refine ⟨TraceExt.of_eq [Event.NvEncCreateInputBuffer width height inputFormat,
      Event.NvEncCreateBitstreamBuffer env.BITSTREAM_BUFFER_SIZE] ?_ ?_, ?_⟩
    · simp
    · simp [Event.isRelease]
    · simp
  · refine ⟨TraceExt.of_eq [Event.NvEncCreateInputBuffer width height inputFormat,
      Event.NvEncCreateBitstreamBuffer env.BITSTREAM_BUFFER_SIZE,
      Event.NvEncRegisterAsyncEvent] ?_ ?_, ?_⟩
    · simp
    · simp [Event.isRelease]
    · simp
  · refine ⟨TraceExt.of_eq [Event.NvEncCreateInputBuffer width height inputFormat,
      Event.NvEncCreateBitstreamBuffer env.BITSTREAM_BUFFER_SIZE,
      Event.NvEncRegisterAsyncEvent] ?_ ?_, ?_⟩
    · simp
    · simp [Event.isRelease]
    · simp

/-- The allocation loop issues no release call and leaves `encodingInitiated_` alone. -/
theorem allocateIOBuffers_loop_ext (env : Env) (width height inputFormat : Nat) (n : Nat)
    (s : NVEncoder) :
    TraceExt (fun e => e.isRelease = false) s
        (allocateIOBuffers_loop env width height inputFormat n s).1 ∧
      (allocateIOBuffers_loop env width height inputFormat n s).1.encodingInitiated_
        = s.encodingInitiated_ := by
  induction n with
  | zero => exact ⟨TraceExt.refl _ _, rfl⟩
  | succ n ih =>
    unfold allocateIOBuffers_loop
    rcases hr : allocateIOBuffers_loop env width height inputFormat n s with ⟨s1, _ | st⟩
    · rw [hr] at ih
      simp only []
      have hb := allocateIOBuffers_body_ext env width height inputFormat n s1
      exact ⟨ih.1.trans hb.1, hb.2.trans ih.2⟩
    · rw [hr] at ih
      exact ih

/-- `allocateIOBuffers` issues no release call and leaves `encodingInitiated_` alone, whether it succeeds or fails. -/
theorem allocateIOBuffers_ext (env : Env) (width height inputFormat : Nat) (s : NVEncoder) :
    TraceExt (fun e => e.isRelease = false) s
        (allocateIOBuffers env width height inputFormat s).1 ∧
      (allocateIOBuffers env width height inputFormat s).1.encodingInitiated_
        = s.encodingInitiated_ := by
  unfold allocateIOBuffers
  simp only []
  have hc : (s.setQueue (BufferRingQueue.init s.encodeBufferCount_)).encodeBufferCount_
      = s.encodeBufferCount_ := rfl
  rw [hc]
  have hl := allocateIOBuffers_loop_ext env width height inputFormat s.encodeBufferCount_
    (s.setQueue (BufferRingQueue.init s.encodeBufferCount_))
  rcases hr : allocateIOBuffers_loop env width height inputFormat s.encodeBufferCount_
    (s.setQueue (BufferRingQueue.init s.encodeBufferCount_)) with ⟨s1, _ | st⟩
  · rw [hr] at hl
    simp only []
    refine ⟨?_, hl.2⟩
    have h1 : TraceExt (fun e => e.isRelease = false) s s1 := hl.1
    exact (TraceExt.log Event.NvEncRegisterAsyncEvent (h1.of_trace_eq rfl) rfl).of_trace_eq rfl
  · rw [hr] at hl
    exact hl

/-- A successful `setEncodeConfigs` makes the single call `fopen` and touches neither the flag, the slots, the end-of-stream buffer nor the queue. -/
theorem setEncodeConfigs_ok (env : Env) (fullSavePath : String) (width height : Nat)
    (bitrate fps : Int) (s : NVEncoder)
    (h : (setEncodeConfigs env fullSavePath width height bitrate fps s).2 = FBCAPTURE_STATUS_OK) :
    (setEncodeConfigs env fullSavePath width height bitrate fps s).1.trace
        = s.trace ++ [Event.fopen fullSavePath] ∧
      (setEncodeConfigs env fullSavePath width height bitrate fps s).1.encodingInitiated_
        = s.encodingInitiated_ ∧
      (setEncodeConfigs env fullSavePath width height bitrate fps s).1.encodeBuffer_
        = s.encodeBuffer_ ∧
      (setEncodeConfigs env fullSavePath width height bitrate fps s).1.eosOutputBfr_
        = s.eosOutputBfr_ ∧
      (setEncodeConfigs env fullSavePath width height bitrate fps s).1.encodeBufferQueue_
        = s.encodeBufferQueue_ := by
  unfold setEncodeConfigs at h ⊢
  simp only [] at h ⊢
  split_ifs at h ⊢
  exact ⟨rfl, rfl, rfl, rfl, rfl⟩

/-- Up to the call of `CreateEncoder` the first `encodeProcess` makes four calls and allocates nothing. -/
theorem atCreateEncoder_fields (env : Env) (texturePtr : Handle) (fullSavePath : String)
    (bitrate fps : Int) (s : NVEncoder)
    (hreach : reachesCreateEncoder env texturePtr fullSavePath bitrate fps s) :
    (atCreateEncoder env texturePtr fullSavePath bitrate fps s).trace
        = s.trace ++ [Event.createD3D11Resources texturePtr, Event.fopen fullSavePath,
            Event.GetPresetGUID, Event.CreateEncoder] ∧
      (atCreateEncoder env texturePtr fullSavePath bitrate fps s).encodingInitiated_ = false ∧
      (atCreateEncoder env texturePtr fullSavePath bitrate fps s).encodeBuffer_
        = s.encodeBuffer_ ∧
      (atCreateEncoder env texturePtr fullSavePath bitrate fps s).eosOutputBfr_
        = s.eosOutputBfr_ ∧
      (atCreateEncoder env texturePtr fullSavePath bitrate fps s).encodeBufferQueue_
        = s.encodeBufferQueue_ := by
  obtain ⟨hinit, htex, hw, hh, hcfg⟩ := hreach
  obtain ⟨h1, h2, h3, h4, h5⟩ := setEncodeConfigs_ok env fullSavePath _ _ bitrate fps _ hcfg
  unfold atCreateEncoder
  refine ⟨?_, ?_, ?_, ?_, ?_⟩
  · have h0 : (createD3D11Resources env texturePtr s).1.trace
        = s.trace ++ [Event.createD3D11Resources texturePtr] := rfl
    simp only [log_trace, h1, h0, List.append_assoc, List.singleton_append,
      List.cons_append, List.nil_append]
  · simp only [log_encodingInitiated_, h2]
    exact hinit
  · exact h3
  · exact h4
  · exact h5

/-- The initialisation block returns the allocation error when `allocateIOBuffers` fails. -/
theorem encodeProcess_init_allocation_failure (env : Env) (texturePtr : Handle)
    (fullSavePath : String) (bitrate fps : Int) (s : NVEncoder)
    (hreach : reachesCreateEncoder env texturePtr fullSavePath bitrate fps s)
    (hcreate : env.CreateEncoder (atCreateEncoder env texturePtr fullSavePath bitrate fps s).trace
      = NV_ENC_SUCCESS)
    (hfail : (atAllocateIOBuffers env texturePtr fullSavePath bitrate fps s).2 ≠ NV_ENC_SUCCESS) :
    encodeProcess_init env fullSavePath bitrate fps (createD3D11Resources env texturePtr s).1
      = ((atAllocateIOBuffers env texturePtr fullSavePath bitrate fps s).1,
          some FBCAPTURE_STATUS_IO_BUFFER_ALLOCATION_FAILED) := by
  obtain ⟨hinit, htex, hw, hh, hcfg⟩ := hreach
  have hinit1 : (createD3D11Resources env texturePtr s).1.encodingInitiated_ = false := hinit
  unfold atAllocateIOBuffers at hfail ⊢
  unfold atCreateEncoder at hcreate hfail ⊢
  unfold encodeProcess_init
  simp only [hinit1, if_true, hcfg, ne_eq, not_true_eq_false, if_false, hcreate, hfail,
    not_false_eq_true]

/-- C7 (amended): when the first call of `encodeProcess` reaches `allocateIOBuffers` and a
resource creation fails there, `encodeProcess` returns
`FBCAPTURE_STATUS_IO_BUFFER_ALLOCATION_FAILED` with the object exactly as `allocateIOBuffers`
left it, `encodingInitiated_` is still false, and no call made since `encodeProcess` was
entered is a release call (no destroy, unregister, close, release or unmap): nothing created
before the failure is given back on this path. -/
theorem encodeProcess_allocation_failure (env : Env) (texturePtr : Handle)
    (fullSavePath : String) (bitrate fps : Int) (needFlipping : Bool) (s : NVEncoder)
    (hreach : reachesCreateEncoder env texturePtr fullSavePath bitrate fps s)
    (hcreate : env.CreateEncoder (atCreateEncoder env texturePtr fullSavePath bitrate fps s).trace
      = NV_ENC_SUCCESS)
    (hfail : (atAllocateIOBuffers env texturePtr fullSavePath bitrate fps s).2 ≠ NV_ENC_SUCCESS) :
    encodeProcess env texturePtr fullSavePath bitrate fps needFlipping s
        = ((atAllocateIOBuffers env texturePtr fullSavePath bitrate fps s).1,
            FBCAPTURE_STATUS_IO_BUFFER_ALLOCATION_FAILED) ∧
      (atAllocateIOBuffers env texturePtr fullSavePath bitrate fps s).1.encodingInitiated_ = false ∧
      TraceExt (fun e => e.isRelease = false) s
        (atAllocateIOBuffers env texturePtr fullSavePath bitrate fps s).1 := by
  obtain ⟨hinit, htex, hw, hh, hcfg⟩ := hreach
  have hres : ¬ ((createD3D11Resources env texturePtr s).1.globalTexDesc_.Width > 4096 ∨
      (createD3D11Resources env texturePtr s).1.globalTexDesc_.Height > 4096) := by omega
  have hI := encodeProcess_init_allocation_failure env texturePtr fullSavePath bitrate fps s
    ⟨hinit, htex, hw, hh, hcfg⟩ hcreate hfail
  have hA := atCreateEncoder_fields env texturePtr fullSavePath bitrate fps s
    ⟨hinit, htex, hw, hh, hcfg⟩
  have hE := allocateIOBuffers_ext env
    (atCreateEncoder env texturePtr fullSavePath bitrate fps s).encodeConfig_.width
    (atCreateEncoder env texturePtr fullSavePath bitrate fps s).encodeConfig_.height
    (atCreateEncoder env texturePtr fullSavePath bitrate fps s).encodeConfig_.inputFormat
    (atCreateEncoder env texturePtr fullSavePath bitrate fps s)
  refine ⟨?_, ?_, ?_⟩
  · unfold encodeProcess
    simp only [htex, ne_eq, not_true_eq_false, if_false, hres, hI]
  · exact hE.2.trans hA.2.1
  · refine TraceExt.trans (TraceExt.of_eq _ hA.1 ?_) hE.1
    simp [Event.isRelease]

/-- Witness for C7: with `NvEncCreateBitstreamBuffer` failing, the first `encodeProcess`
returns the allocation error with `encodingInitiated_` false. -/
theorem encodeProcess_allocation_failure_witness :
    (encodeProcess envBitstreamFails 5 "out.h264" 1000000 30 false session0).2
        = FBCAPTURE_STATUS_IO_BUFFER_ALLOCATION_FAILED ∧
      (atAllocateIOBuffers envBitstreamFails 5 "out.h264" 1000000 30 session0).1.encodingInitiated_
        = false :=
  ⟨congrArg Prod.snd
      (encodeProcess_allocation_failure envBitstreamFails 5 "out.h264" 1000000 30 false session0
        (by decide) (by decide) (by decide)).1,
    (encodeProcess_allocation_failure envBitstreamFails 5 "out.h264" 1000000 30 false session0
        (by decide) (by decide) (by decide)).2.1⟩

/-- Counterexample to C7 as stated: capacity 1, the input buffer of slot 0 is created (handle
105) and the bitstream buffer creation fails.  `encodeProcess` returns the allocation error
after six calls, none of which destroys anything, and slot 0 still holds the handle 105. -/
theorem allocation_failure_keeps_handle :
    (encodeProcess envBitstreamFails 5 "out.h264" 1000000 30 false session0).2
        = FBCAPTURE_STATUS_IO_BUFFER_ALLOCATION_FAILED ∧
      (encodeProcess envBitstreamFails 5 "out.h264" 1000000 30 false session0).1.trace
        = [Event.createD3D11Resources 5, Event.fopen "out.h264", Event.GetPresetGUID,
            Event.CreateEncoder, Event.NvEncCreateInputBuffer 1920 1080 1,
            Event.NvEncCreateBitstreamBuffer 2097152] ∧
      ((encodeProcess envBitstreamFails 5 "out.h264" 1000000 30 false session0).1.encodeBuffer_
          0).stInputBfr.hInputSurface = 105 := by
  decide

/-- C8 (amended): when the first call of `encodeProcess` reaches `CreateEncoder` and the
backend answers out-of-memory, `encodeProcess` returns
`FBCAPTURE_STATUS_ENCODER_CREATION_FAILED`; the calls made are `createD3D11Resources`, `fopen`,
`GetPresetGUID` and `CreateEncoder` only, so `allocateIOBuffers` is not called, the slots, the
end-of-stream buffer and the queue are untouched and `encodingInitiated_` stays false.  The
status `FBCAPTURE_STATUS_MULTIPLE_ENCODING_SESSION` is what `initEncodingSession` returns when
`Initialize` answers out-of-memory. -/
theorem encodeProcess_createEncoder_failure (env : Env) (texturePtr : Handle)
    (fullSavePath : String) (bitrate fps : Int) (needFlipping : Bool) (s : NVEncoder)
    (hreach : reachesCreateEncoder env texturePtr fullSavePath bitrate fps s)
    (hoom : env.CreateEncoder (atCreateEncoder env texturePtr fullSavePath bitrate fps s).trace
      = NV_ENC_ERR_OUT_OF_MEMORY) :
    encodeProcess env texturePtr fullSavePath bitrate fps needFlipping s
        = (atCreateEncoder env texturePtr fullSavePath bitrate fps s,
            FBCAPTURE_STATUS_ENCODER_CREATION_FAILED) ∧
      (atCreateEncoder env texturePtr fullSavePath bitrate fps s).trace
        = s.trace ++ [Event.createD3D11Resources texturePtr, Event.fopen fullSavePath,
            Event.GetPresetGUID, Event.CreateEncoder] ∧
      (atCreateEncoder env texturePtr fullSavePath bitrate fps s).encodingInitiated_ = false ∧
      (atCreateEncoder env texturePtr fullSavePath bitrate fps s).encodeBuffer_
        = s.encodeBuffer_ ∧
      (atCreateEncoder env texturePtr fullSavePath bitrate fps s).eosOutputBfr_
        = s.eosOutputBfr_ ∧
      (atCreateEncoder env texturePtr fullSavePath bitrate fps s).encodeBufferQueue_
        = s.encodeBufferQueue_ ∧
      (∀ s0 : NVEncoder,
        (env.Initialize (s0.trace ++ [Event.Initialize s0.device_])).1 = NV_ENC_ERR_OUT_OF_MEMORY →
        (initEncodingSession env s0).2 = FBCAPTURE_STATUS_MULTIPLE_ENCODING_SESSION) := by
  have hA := atCreateEncoder_fields env texturePtr fullSavePath bitrate fps s hreach
  obtain ⟨hinit, htex, hw, hh, hcfg⟩ := hreach
  have hres : ¬ ((createD3D11Resources env texturePtr s).1.globalTexDesc_.Width > 4096 ∨
      (createD3D11Resources env texturePtr s).1.globalTexDesc_.Height > 4096) := by omega
  have hinit1 : (createD3D11Resources env texturePtr s).1.encodingInitiated_ = false := hinit
  refine ⟨?_, hA.1, hA.2.1, hA.2.2.1, hA.2.2.2.1, hA.2.2.2.2, ?_⟩
  · have hI : encodeProcess_init env fullSavePath bitrate fps
        (createD3D11Resources env texturePtr s).1
        = (atCreateEncoder env texturePtr fullSavePath bitrate fps s,
            some FBCAPTURE_STATUS_ENCODER_CREATION_FAILED) := by
      unfold atCreateEncoder at hoom ⊢
      unfold encodeProcess_init
      simp only [hinit1, if_true, hcfg, ne_eq, not_true_eq_false, if_false, hoom,
        not_false_eq_true, reduceCtorEq]
    unfold encodeProcess
    simp only [htex, ne_eq, not_true_eq_false, if_false, hres, hI]
  · intro s0 h0
    have hlog : ∀ x : NVEncoder, (x.log (Event.Initialize s0.device_)).trace
        = x.trace ++ [Event.Initialize s0.device_] := fun _ => rfl
    unfold initEncodingSession
    by_cases hn : s0.nvHWEncoder_ = none
    · simp only [hn, if_true]
      simp only [NVEncoder.log, h0, reduceCtorEq, if_false, if_true]
    · simp only [hn, if_false]
      simp only [NVEncoder.log, h0, reduceCtorEq, if_false, if_true]

/-- Witness for C8: `CreateEncoder` answers out-of-memory on the first `encodeProcess`. -/
theorem encodeProcess_createEncoder_failure_witness :
    (encodeProcess envCreateEncoderOOM 5 "out.h264" 1000000 30 false session0).2
      = FBCAPTURE_STATUS_ENCODER_CREATION_FAILED :=
  congrArg Prod.snd
    (encodeProcess_createEncoder_failure envCreateEncoderOOM 5 "out.h264" 1000000 30 false
      session0 (by decide) (by decide)).1

/-- Counterexample to C8 as stated: `CreateEncoder` answers `NV_ENC_ERR_OUT_OF_MEMORY` on the
first `encodeProcess`, and the status returned is `FBCAPTURE_STATUS_ENCODER_CREATION_FAILED`,
not `FBCAPTURE_STATUS_MULTIPLE_ENCODING_SESSION`. -/
theorem createEncoder_oom_is_not_session_in_use :
    envCreateEncoderOOM.CreateEncoder
        [Event.createD3D11Resources 5, Event.fopen "out.h264", Event.GetPresetGUID,
          Event.CreateEncoder] = NV_ENC_ERR_OUT_OF_MEMORY ∧
      (encodeProcess envCreateEncoderOOM 5 "out.h264" 1000000 30 false session0).1.trace
        = [Event.createD3D11Resources 5, Event.fopen "out.h264", Event.GetPresetGUID,
            Event.CreateEncoder] ∧
      (encodeProcess envCreateEncoderOOM 5 "out.h264" 1000000 30 false session0).2
        = FBCAPTURE_STATUS_ENCODER_CREATION_FAILED ∧
      (encodeProcess envCreateEncoderOOM 5 "out.h264" 1000000 30 false session0).2
        ≠ FBCAPTURE_STATUS_MULTIPLE_ENCODING_SESSION := by
  decide

/-- C9 (the code at the failing inputs): in an initiated session, after a successful
`mapTexture`, `copyReources` returns the error of a failing `NvEncLockInputBuffer`,
respectively of a failing `NvEncUnlockInputBuffer`, and has made no `Unmap` call: one
successful map, no unmap.  When nothing fails the texture is unmapped once. -/
theorem copyReources_error_return_skips_Unmap :
    envLockBusy.mapTexture [Event.mapTexture] = FBCAPTURE_STATUS_OK ∧
      (copyReources envLockBusy 1920 1080 session1).2 = NV_ENC_ERR_LOCK_BUSY ∧
      (copyReources envLockBusy 1920 1080 session1).1.trace
        = [Event.mapTexture, Event.NvEncLockInputBuffer 105] ∧
      envUnlockFails.mapTexture [Event.mapTexture] = FBCAPTURE_STATUS_OK ∧
      (copyReources envUnlockFails 1920 1080 session1).2 = NV_ENC_ERR_INVALID_PARAM ∧
      (copyReources envUnlockFails 1920 1080 session1).1.trace
        = [Event.mapTexture, Event.NvEncLockInputBuffer 105, Event.memcpy 1080,
            Event.NvEncUnlockInputBuffer 105] ∧
      (copyReources (envOK 1920 1080) 1920 1080 session1).1.trace
        = [Event.mapTexture, Event.NvEncLockInputBuffer 105, Event.memcpy 1080,
            Event.NvEncUnlockInputBuffer 105, Event.Unmap 5] := by
  decide

/-- Slots after a slot write. -/
@[simp] theorem setBuf_encodeBuffer_ (s : NVEncoder) (i : Nat) (f : EncodeBuffer → EncodeBuffer)
    (j : Nat) :
    (s.setBuf i f).encodeBuffer_ j = if j = i then f (s.encodeBuffer_ j) else s.encodeBuffer_ j :=
  rfl

/-- Slots after recording a call. -/
@[simp] theorem log_encodeBuffer_ (s : NVEncoder) (e : Event) :
    (s.log e).encodeBuffer_ = s.encodeBuffer_ := rfl

/-- An iteration of the loop of `releaseIOBuffers` touches only slots and trace. -/
theorem releaseIOBuffers_body_other (i : Nat) (s : NVEncoder) :
    (releaseIOBuffers_body i s).encodeBufferCount_ = s.encodeBufferCount_ ∧
      (releaseIOBuffers_body i s).eosOutputBfr_ = s.eosOutputBfr_ ∧
      (releaseIOBuffers_body i s).encodingInitiated_ = s.encodingInitiated_ ∧
      (releaseIOBuffers_body i s).nvHWEncoder_ = s.nvHWEncoder_ ∧
      (releaseIOBuffers_body i s).encodeConfig_ = s.encodeConfig_ ∧
      (releaseIOBuffers_body i s).encodeBufferQueue_ = s.encodeBufferQueue_ := by
  unfold releaseIOBuffers_body
  by_cases h1 : (s.encodeBuffer_ i).stInputBfr.pNVSurface = 0 <;>
  by_cases h2 : (s.encodeBuffer_ i).stInputBfr.hInputSurface = 0 <;>
  by_cases h3 : (s.encodeBuffer_ i).stOutputBfr.hBitstreamBuffer = 0 <;>
  by_cases h4 : (s.encodeBuffer_ i).stOutputBfr.hOutputEvent = 0 <;>
  by_cases hi0 : i = 0 <;>
  simp_all [EncodeBuffer.set_pNVSurface, EncodeBuffer.set_hInputSurface,
    EncodeBuffer.set_hBitstreamBuffer, EncodeBuffer.set_hOutputEvent, NVEncoder.setBuf,
    NVEncoder.log]

/-- The loop of `releaseIOBuffers` touches only slots and trace. -/
theorem releaseIOBuffers_loop_other (n : Nat) (s : NVEncoder) :
    (releaseIOBuffers_loop n s).encodeBufferCount_ = s.encodeBufferCount_ ∧
      (releaseIOBuffers_loop n s).eosOutputBfr_ = s.eosOutputBfr_ ∧
      (releaseIOBuffers_loop n s).encodingInitiated_ = s.encodingInitiated_ ∧
      (releaseIOBuffers_loop n s).nvHWEncoder_ = s.nvHWEncoder_ ∧
      (releaseIOBuffers_loop n s).encodeConfig_ = s.encodeConfig_ ∧
      (releaseIOBuffers_loop n s).encodeBufferQueue_ = s.encodeBufferQueue_ := by
  induction n with
  | zero => exact ⟨rfl, rfl, rfl, rfl, rfl, rfl⟩
  | succ n ih =>
    have hb := releaseIOBuffers_body_other n (releaseIOBuffers_loop n s)
    simp only [releaseIOBuffers_loop]
    exact ⟨hb.1.trans ih.1, hb.2.1.trans ih.2.1, hb.2.2.1.trans ih.2.2.1,
      hb.2.2.2.1.trans ih.2.2.2.1, hb.2.2.2.2.1.trans ih.2.2.2.2.1,
      hb.2.2.2.2.2.trans ih.2.2.2.2.2⟩

/-- `releaseIOBuffers` touches only slots, end-of-stream buffer and trace. -/
theorem releaseIOBuffers_other (s : NVEncoder) :
    (releaseIOBuffers s).encodeBufferCount_ = s.encodeBufferCount_ ∧
      (releaseIOBuffers s).encodingInitiated_ = s.encodingInitiated_ ∧
      (releaseIOBuffers s).nvHWEncoder_ = s.nvHWEncoder_ ∧
      (releaseIOBuffers s).encodeConfig_ = s.encodeConfig_ ∧
      (releaseIOBuffers s).encodeBufferQueue_ = s.encodeBufferQueue_ := by
  obtain ⟨h1, -, h3, h4, h5, h6⟩ := releaseIOBuffers_loop_other s.encodeBufferCount_ s
  unfold releaseIOBuffers
  simp only []
  split_ifs
  · exact ⟨h1, h3, h4, h5, h6⟩
  · exact ⟨h1, h3, h4, h5, h6⟩

/-- `getPending` on an empty queue. -/
theorem getPending_empty (q : BufferRingQueue) (h : q.pending = 0) :
    q.getPending = (none, q) := by
  simp [BufferRingQueue.getPending, h]

/-- `getPending` on a queue that is not empty. -/
theorem getPending_nonempty (q : BufferRingQueue) (h : q.pending ≠ 0) :
    q.getPending = (some q.oldestPending,
      { q with oldestPending := (q.oldestPending + 1) % q.capacity, pending := q.pending - 1 }) := by
  simp [BufferRingQueue.getPending, h]

/-- With more fuel than pending slots the loop of `flushEncoder` runs to its end, and it
leaves `encodingInitiated_`, the end-of-stream buffer, the encoder pointer, the configuration
and the slot count alone. -/
theorem flushEncoder_loop_total (env : Env) (fuel : Nat) :
    ∀ (s : NVEncoder) (buf : Option Nat) (nvStatus : NVENCSTATUS),
      (buf ≠ none → s.encodeBufferQueue_.pending < fuel) →
      ∃ r, flushEncoder_loop env fuel s buf nvStatus = some r ∧
        r.1.encodingInitiated_ = s.encodingInitiated_ ∧
        r.1.eosOutputBfr_ = s.eosOutputBfr_ ∧
        r.1.nvHWEncoder_ = s.nvHWEncoder_ ∧
        r.1.encodeConfig_ = s.encodeConfig_ ∧
        r.1.encodeBufferCount_ = s.encodeBufferCount_ := by
  induction fuel with
  | zero =>
    intro s buf nvStatus h
    cases buf with
    | none => exact ⟨(s, nvStatus), rfl, rfl, rfl, rfl, rfl, rfl⟩
    | some b => exact absurd (h (by simp)) (Nat.not_lt_zero _)
  | succ fuel ih =>
    intro s buf nvStatus h
    cases buf with
    | none => exact ⟨(s, nvStatus), rfl, rfl, rfl, rfl, rfl, rfl⟩
    | some b =>
      have hp : s.encodeBufferQueue_.pending < fuel + 1 := h (by simp)
      have key : ∀ (S : NVEncoder) (p : Option Nat) (st : NVENCSTATUS),
          (p ≠ none → S.encodeBufferQueue_.pending < fuel) →
          S.encodingInitiated_ = s.encodingInitiated_ →
          S.eosOutputBfr_ = s.eosOutputBfr_ →
          S.nvHWEncoder_ = s.nvHWEncoder_ →
          S.encodeConfig_ = s.encodeConfig_ →
          S.encodeBufferCount_ = s.encodeBufferCount_ →
          ∃ r, flushEncoder_loop env fuel S p st = some r ∧
            r.1.encodingInitiated_ = s.encodingInitiated_ ∧
            r.1.eosOutputBfr_ = s.eosOutputBfr_ ∧
            r.1.nvHWEncoder_ = s.nvHWEncoder_ ∧
            r.1.encodeConfig_ = s.encodeConfig_ ∧
            r.1.encodeBufferCount_ = s.encodeBufferCount_ := by
        intro S p st hS e1 e2 e3 e4 e5
        obtain ⟨r, hr, h1, h2, h3, h4, h5⟩ := ih S p st hS
        exact ⟨r, hr, h1.trans e1, h2.trans e2, h3.trans e3, h4.trans e4, h5.trans e5⟩
      have hq : (s.log (Event.ProcessOutput (some b))).encodeBufferQueue_
          = s.encodeBufferQueue_ := rfl
      unfold flushEncoder_loop
      simp only [hq]
      by_cases h0 : s.encodeBufferQueue_.pending = 0
      · rw [getPending_empty _ h0]
        exact key _ _ _ (fun hne => absurd rfl hne) rfl rfl rfl rfl rfl
      · rw [getPending_nonempty _ h0]
        simp only []
        split_ifs
        · exact key _ _ _ (fun _ => by
            show s.encodeBufferQueue_.pending - 1 < fuel
            omega) rfl rfl rfl rfl rfl
        · exact key _ _ _ (fun _ => by
            show s.encodeBufferQueue_.pending - 1 < fuel
            omega) rfl rfl rfl rfl rfl

/-- `flushEncoder` always returns; it leaves `encodingInitiated_`, the encoder pointer, the
configuration and the slot count alone; and its status is `NV_ENC_ERR_INVALID_CALL` when the
end-of-stream event is null, the backend's answer when `NvEncFlushEncoderQueue` fails, and
`NV_ENC_ERR_GENERIC` when the 500 ms wait does not end with `WAIT_OBJECT_0`. -/
theorem flushEncoder_total (env : Env) (s : NVEncoder) :
    ∃ r, flushEncoder env s = some r ∧
      r.1.encodingInitiated_ = s.encodingInitiated_ ∧
      r.1.nvHWEncoder_ = s.nvHWEncoder_ ∧
      r.1.encodeConfig_ = s.encodeConfig_ ∧
      r.1.encodeBufferCount_ = s.encodeBufferCount_ ∧
      (s.eosOutputBfr_.hOutputEvent = 0 → r = (s, NV_ENC_ERR_INVALID_CALL)) ∧
      (s.eosOutputBfr_.hOutputEvent ≠ 0 →
        env.NvEncFlushEncoderQueue
            (s.trace ++ [Event.NvEncFlushEncoderQueue s.eosOutputBfr_.hOutputEvent])
          ≠ NV_ENC_SUCCESS →
        r = (s.log (Event.NvEncFlushEncoderQueue s.eosOutputBfr_.hOutputEvent),
          env.NvEncFlushEncoderQueue
            (s.trace ++ [Event.NvEncFlushEncoderQueue s.eosOutputBfr_.hOutputEvent]))) ∧
      (s.eosOutputBfr_.hOutputEvent ≠ 0 →
        env.NvEncFlushEncoderQueue
            (s.trace ++ [Event.NvEncFlushEncoderQueue s.eosOutputBfr_.hOutputEvent])
          = NV_ENC_SUCCESS →
        env.WaitForSingleObject r.1.trace = false → r.2 = NV_ENC_ERR_GENERIC) := by
  by_cases heos : s.eosOutputBfr_.hOutputEvent = 0
  · refine ⟨(s, NV_ENC_ERR_INVALID_CALL), ?_, rfl, rfl, rfl, rfl, fun _ => rfl,
      fun h => absurd heos h, fun h => absurd heos h⟩
    unfold flushEncoder
    simp only [heos, if_true]
  · by_cases hf : env.NvEncFlushEncoderQueue
        (s.trace ++ [Event.NvEncFlushEncoderQueue s.eosOutputBfr_.hOutputEvent]) = NV_ENC_SUCCESS
    · have hq : (s.log (Event.NvEncFlushEncoderQueue s.eosOutputBfr_.hOutputEvent)).encodeBufferQueue_
          = s.encodeBufferQueue_ := rfl
      obtain ⟨r, hr, h1, h2, h3, h4, h5⟩ := flushEncoder_loop_total env
        s.encodeBufferQueue_.pending
        ((s.log (Event.NvEncFlushEncoderQueue s.eosOutputBfr_.hOutputEvent)).setQueue
          s.encodeBufferQueue_.getPending.2)
        s.encodeBufferQueue_.getPending.1 NV_ENC_SUCCESS (by
          intro hne
          by_cases h0 : s.encodeBufferQueue_.pending = 0
          · rw [getPending_empty _ h0] at hne
            exact absurd rfl hne
          · rw [getPending_nonempty _ h0]
            show s.encodeBufferQueue_.pending - 1 < s.encodeBufferQueue_.pending
            omega)
      have hfl : flushEncoder env s
          = (if env.WaitForSingleObject
                (r.1.log (Event.WaitForSingleObject r.1.eosOutputBfr_.hOutputEvent 500)).trace
                ≠ true
              then some (r.1.log (Event.WaitForSingleObject r.1.eosOutputBfr_.hOutputEvent 500),
                NV_ENC_ERR_GENERIC)
              else some (r.1.log (Event.WaitForSingleObject r.1.eosOutputBfr_.hOutputEvent 500),
                r.2)) := by
        have hf1 : env.NvEncFlushEncoderQueue
            (s.log (Event.NvEncFlushEncoderQueue s.eosOutputBfr_.hOutputEvent)).trace
            = NV_ENC_SUCCESS := hf
        unfold flushEncoder
        simp only [heos, if_false, hf1, ne_eq, not_true_eq_false, hq, hr]
      by_cases hw : env.WaitForSingleObject
          (r.1.log (Event.WaitForSingleObject r.1.eosOutputBfr_.hOutputEvent 500)).trace = true
      · refine ⟨(r.1.log (Event.WaitForSingleObject r.1.eosOutputBfr_.hOutputEvent 500), r.2),
          by rw [hfl, if_neg (by simpa using hw)], h1, h3, h4, h5,
          fun h => absurd h heos, fun _ h => absurd hf h, fun _ _ h => ?_⟩
        have h' : env.WaitForSingleObject
            (r.1.log (Event.WaitForSingleObject r.1.eosOutputBfr_.hOutputEvent 500)).trace
            = false := h
        rw [hw] at h'
        exact absurd h' (by decide)
      · refine ⟨(r.1.log (Event.WaitForSingleObject r.1.eosOutputBfr_.hOutputEvent 500),
            NV_ENC_ERR_GENERIC),
          by rw [hfl, if_pos hw], h1, h3, h4, h5,
          fun h => absurd h heos, fun _ h => absurd hf h, fun _ _ _ => rfl⟩
    · refine ⟨_, ?_, rfl, rfl, rfl, rfl, fun h => absurd h heos, fun _ _ => rfl,
        fun _ h => absurd h hf⟩
      have hf1 : ¬ env.NvEncFlushEncoderQueue
          (s.log (Event.NvEncFlushEncoderQueue s.eosOutputBfr_.hOutputEvent)).trace
          = NV_ENC_SUCCESS := hf
      unfold flushEncoder
      simp only [heos, if_false, hf1, ne_eq, not_false_eq_true, if_true]
      rfl

/-- `releaseEncodingResources` leaves `encodingInitiated_` and the slot count alone. -/
theorem releaseEncodingResources_flag (env : Env) (s : NVEncoder) :
    (releaseEncodingResources env s).1.encodingInitiated_ = s.encodingInitiated_ ∧
      (releaseEncodingResources env s).1.encodeBufferCount_ = s.encodeBufferCount_ := by
  obtain ⟨h1, h2, -, -, -⟩ := releaseIOBuffers_other s
  unfold releaseEncodingResources
  cases hh : s.nvHWEncoder_ with
  | none => exact ⟨rfl, rfl⟩
  | some hw =>
    simp only []
    split_ifs <;> exact ⟨h2, h1⟩

/-- `flushInputTextures` in terms of the result of its call of `flushEncoder`. -/
theorem flushInputTextures_eq (env : Env) (s f : NVEncoder) (nv : NVENCSTATUS)
    (h : flushEncoder env { s with encodingInitiated_ := false } = some (f, nv)) :
    flushInputTextures env s
      = some ((releaseEncodingResources env f).1,
          if nv ≠ NV_ENC_SUCCESS then FBCAPTURE_STATUS_ENCODE_FLUSH_FAILED
          else (releaseEncodingResources env f).2) := by
  unfold flushInputTextures
  simp only [h]

/-- The status of `releaseEncodingResources` is `FBCAPTURE_STATUS_OK` or
`FBCAPTURE_STATUS_ENCODE_DESTROY_FAILED`, never the flush error. -/
theorem releaseEncodingResources_status (env : Env) (s : NVEncoder) :
    (releaseEncodingResources env s).2 ≠ FBCAPTURE_STATUS_ENCODE_FLUSH_FAILED := by
  unfold releaseEncodingResources
  cases s.nvHWEncoder_ with
  | none => simp
  | some hw =>
    simp only []
    split_ifs <;> simp

/-- C5: `flushEncoder` always returns some object `f` and status `nv`; whatever they are,
`flushInputTextures` then runs `releaseEncodingResources` on `f`, returns
`FBCAPTURE_STATUS_ENCODE_FLUSH_FAILED` exactly when `nv` is not `NV_ENC_SUCCESS` and the
status of `releaseEncodingResources` otherwise, and leaves `encodingInitiated_` false.  Among
the results covered: `nv` is the backend's answer when `NvEncFlushEncoderQueue` fails, and
`NV_ENC_ERR_GENERIC` when the 500 ms wait on the end-of-stream event times out. -/
theorem flushInputTextures_always_releases (env : Env) (s : NVEncoder) :
    ∃ f nv, flushEncoder env { s with encodingInitiated_ := false } = some (f, nv) ∧
      flushInputTextures env s
        = some ((releaseEncodingResources env f).1,
            if nv ≠ NV_ENC_SUCCESS then FBCAPTURE_STATUS_ENCODE_FLUSH_FAILED
            else (releaseEncodingResources env f).2) ∧
      (releaseEncodingResources env f).1.encodingInitiated_ = false ∧
      ((flushInputTextures env s).map Prod.snd = some FBCAPTURE_STATUS_ENCODE_FLUSH_FAILED
        ↔ nv ≠ NV_ENC_SUCCESS) ∧
      (nv = NV_ENC_SUCCESS →
        (flushInputTextures env s).map Prod.snd = some (releaseEncodingResources env f).2) ∧
      (s.eosOutputBfr_.hOutputEvent ≠ 0 →
        env.NvEncFlushEncoderQueue
            (s.trace ++ [Event.NvEncFlushEncoderQueue s.eosOutputBfr_.hOutputEvent])
          ≠ NV_ENC_SUCCESS →
        nv = env.NvEncFlushEncoderQueue
            (s.trace ++ [Event.NvEncFlushEncoderQueue s.eosOutputBfr_.hOutputEvent])) ∧
      (s.eosOutputBfr_.hOutputEvent ≠ 0 →
        env.NvEncFlushEncoderQueue
            (s.trace ++ [Event.NvEncFlushEncoderQueue s.eosOutputBfr_.hOutputEvent])
          = NV_ENC_SUCCESS →
        env.WaitForSingleObject f.trace = false → nv = NV_ENC_ERR_GENERIC) := by
  obtain ⟨⟨f, nv⟩, hr, h1, -, -, -, -, h6, h7⟩ :=
    flushEncoder_total env { s with encodingInitiated_ := false }
  have hfi := flushInputTextures_eq env s f nv hr
  refine ⟨f, nv, hr, hfi, ?_, ?_, ?_, ?_, ?_⟩
  · rw [(releaseEncodingResources_flag env f).1]
    exact h1
  · constructor
    · intro hst hnv
      rw [hfi, if_neg (by simpa using hnv)] at hst
      exact releaseEncodingResources_status env f (Option.some.inj hst)
    · intro hne
      rw [hfi, if_pos hne]
      rfl
  · intro he
    rw [hfi, if_neg (by simpa using he)]
    rfl
  · intro he hfail
    exact congrArg Prod.snd (h6 he hfail)
  · intro he hok hw
    exact h7 he hok hw

/-- A freshly initialised queue with at least one slot is consistent. -/
theorem init_wf (C : Nat) (hC : 1 ≤ C) : QueueWF (BufferRingQueue.init C) := by
  refine ⟨hC, Nat.zero_le _, hC, ?_⟩
  simp [BufferRingQueue.init, Nat.mod_eq_of_lt hC]

/-- `getAvailable` on a consistent queue that is not full hands out the slot at
`nextAvailable`, which becomes the newest pending slot. -/
theorem getAvailable_not_full (q : BufferRingQueue) (hwf : QueueWF q)
    (h : q.pending ≠ q.capacity) :
    q.getAvailable.1 = some q.nextAvailable ∧ QueueWF q.getAvailable.2 ∧
      q.getAvailable.2.capacity = q.capacity ∧
      q.getAvailable.2.nextAvailable = (q.nextAvailable + 1) % q.capacity ∧
      q.getAvailable.2.pendingSlots = q.pendingSlots ++ [q.nextAvailable] := by
  obtain ⟨h1, h2, h3, h4⟩ := hwf
  have hg : q.getAvailable = (some q.nextAvailable,
      { q with nextAvailable := (q.nextAvailable + 1) % q.capacity, pending := q.pending + 1 }) := by
    simp [BufferRingQueue.getAvailable, h]
  rw [hg]
  refine ⟨rfl, ⟨h1, ?_, h3, ?_⟩, rfl, rfl, ?_⟩
  · show q.pending + 1 ≤ q.capacity
    omega
  · show (q.nextAvailable + 1) % q.capacity = (q.oldestPending + (q.pending + 1)) % q.capacity
    rw [h4, Nat.mod_add_mod, Nat.add_assoc]
  · show (List.range (q.pending + 1)).map (fun k => (q.oldestPending + k) % q.capacity)
      = (List.range q.pending).map (fun k => (q.oldestPending + k) % q.capacity)
        ++ [q.nextAvailable]
    rw [List.range_succ, List.map_append, h4]
    rfl

/-- `getPending` on a consistent queue that is not empty hands out the slot at
`oldestPending`, the oldest pending slot. -/
theorem getPending_not_empty (q : BufferRingQueue) (hwf : QueueWF q) (h : q.pending ≠ 0) :
    q.getPending.1 = some q.oldestPending ∧ QueueWF q.getPending.2 ∧
      q.getPending.2.capacity = q.capacity ∧
      q.getPending.2.nextAvailable = q.nextAvailable ∧
      q.getPending.2.pending = q.pending - 1 ∧
      q.pendingSlots = q.oldestPending :: q.getPending.2.pendingSlots := by
  obtain ⟨h1, h2, h3, h4⟩ := hwf
  rw [getPending_nonempty q h]
  refine ⟨rfl, ⟨h1, ?_, ?_, ?_⟩, rfl, rfl, rfl, ?_⟩
  · show q.pending - 1 ≤ q.capacity
    omega
  · show (q.oldestPending + 1) % q.capacity < q.capacity
    exact Nat.mod_lt _ (by omega)
  · show q.nextAvailable = ((q.oldestPending + 1) % q.capacity + (q.pending - 1)) % q.capacity
    rw [h4, Nat.mod_add_mod]
    congr 1
    omega
  · show (List.range q.pending).map (fun k => (q.oldestPending + k) % q.capacity)
      = q.oldestPending :: (List.range (q.pending - 1)).map
          (fun k => ((q.oldestPending + 1) % q.capacity + k) % q.capacity)
    obtain ⟨p, hp⟩ : ∃ p, q.pending = p + 1 := ⟨q.pending - 1, by omega⟩
    rw [hp, List.range_succ_eq_map]
    simp only [List.map_cons, List.map_map, Nat.add_zero, Nat.add_sub_cancel]
    rw [Nat.mod_eq_of_lt h3]
    congr 1
    apply List.map_congr_left
    intro k _
    simp only [Function.comp, Nat.mod_add_mod]
    congr 1
    omega

/-- Queue after a queue assignment. -/
@[simp] theorem setQueue_encodeBufferQueue_ (s : NVEncoder) (q : BufferRingQueue) :
    (s.setQueue q).encodeBufferQueue_ = q := rfl

/-- Trace after a queue assignment. -/
@[simp] theorem setQueue_trace (s : NVEncoder) (q : BufferRingQueue) :
    (s.setQueue q).trace = s.trace := rfl

/-- Queue after recording a call. -/
@[simp] theorem log_encodeBufferQueue_ (s : NVEncoder) (e : Event) :
    (s.log e).encodeBufferQueue_ = s.encodeBufferQueue_ := rfl

/-- Assigning the queue to itself changes nothing. -/
@[simp] theorem setQueue_self (s : NVEncoder) : s.setQueue s.encodeBufferQueue_ = s := rfl

/-- `getAvailable` on a full queue returns no slot and leaves the queue alone. -/
theorem getAvailable_full (q : BufferRingQueue) (h : q.pending = q.capacity) :
    q.getAvailable = (none, q) := by
  simp [BufferRingQueue.getAvailable, h]

/-- End-of-stream buffer after recording a call. -/
@[simp] theorem log_eosOutputBfr_ (s : NVEncoder) (e : Event) :
    (s.log e).eosOutputBfr_ = s.eosOutputBfr_ := rfl

/-- Encoding texture after recording a call. -/
@[simp] theorem log_encodingTexure_ (s : NVEncoder) (e : Event) :
    (s.log e).encodingTexure_ = s.encodingTexure_ := rfl

/-- Drains in a trace extended by one call. -/
theorem drained_append (t u : List Event) : drained (t ++ u) = drained t ++ drained u := by
  simp [drained, List.filterMap_append]

/-- Submissions in a trace extended by one call. -/
theorem submitted_append (t u : List Event) :
    submitted (t ++ u) = submitted t ++ submitted u := by
  simp [submitted, List.filterMap_append]

/-- Slot count after recording a call. -/
@[simp] theorem log_encodeBufferCount_ (s : NVEncoder) (e : Event) :
    (s.log e).encodeBufferCount_ = s.encodeBufferCount_ := rfl

/-- Slot count after a slot write. -/
@[simp] theorem setBuf_encodeBufferCount_ (s : NVEncoder) (i : Nat)
    (f : EncodeBuffer → EncodeBuffer) :
    (s.setBuf i f).encodeBufferCount_ = s.encodeBufferCount_ := rfl

/-- Queue after a slot write. -/
@[simp] theorem setBuf_encodeBufferQueue_ (s : NVEncoder) (i : Nat)
    (f : EncodeBuffer → EncodeBuffer) :
    (s.setBuf i f).encodeBufferQueue_ = s.encodeBufferQueue_ := rfl

/-- Slot count after a queue assignment. -/
@[simp] theorem setQueue_encodeBufferCount_ (s : NVEncoder) (q : BufferRingQueue) :
    (s.setQueue q).encodeBufferCount_ = s.encodeBufferCount_ := rfl

/-- Flag after a queue assignment. -/
@[simp] theorem setQueue_encodingInitiated_ (s : NVEncoder) (q : BufferRingQueue) :
    (s.setQueue q).encodingInitiated_ = s.encodingInitiated_ := rfl

/-- Slots after a queue assignment. -/
@[simp] theorem setQueue_encodeBuffer_ (s : NVEncoder) (q : BufferRingQueue) :
    (s.setQueue q).encodeBuffer_ = s.encodeBuffer_ := rfl

/-- A list of quiet events holds no submission and no drain. -/
theorem quiet_nil (u : List Event) (h : ∀ e ∈ u, Event.quiet e) :
    submitted u = [] ∧ drained u = [] := by
  induction u with
  | nil => exact ⟨rfl, rfl⟩
  | cons e u ih =>
    have he := h e (by simp)
    have hu := ih (fun x hx => h x (by simp [hx]))
    constructor
    · have : submitted (e :: u) = submitted u := by
        simp [submitted, List.filterMap_cons, he.1]
      rw [this]
      exact hu.1
    · have : drained (e :: u) = drained u := by
        simp [drained, List.filterMap_cons, he.2]
      rw [this]
      exact hu.2

/-- The calls recorded since `s0`, when the trace is that of `s0` followed by `t`. -/
theorem since_of_eq (s s0 : NVEncoder) (t : List Event) (h : s.trace = s0.trace ++ t) :
    s.since s0 = t := by
  simp [NVEncoder.since, h]

/-- `setEncodeConfigs` makes only quiet calls and touches neither the slot count, the flag nor
the queue. -/
theorem setEncodeConfigs_quiet (env : Env) (fullSavePath : String) (width height : Nat)
    (bitrate fps : Int) (s : NVEncoder) :
    TraceExt Event.quiet s (setEncodeConfigs env fullSavePath width height bitrate fps s).1 ∧
      (setEncodeConfigs env fullSavePath width height bitrate fps s).1.encodeBufferCount_
        = s.encodeBufferCount_ ∧
      (setEncodeConfigs env fullSavePath width height bitrate fps s).1.encodingInitiated_
        = s.encodingInitiated_ := by
  unfold setEncodeConfigs
  simp only []
  split_ifs
  · refine ⟨TraceExt.of_eq [Event.fopen fullSavePath, Event.fclose 0,
      Event.remove fullSavePath] ?_ ?_, rfl, rfl⟩
    · simp_all [NVEncoder.log]
    · simp [Event.quiet, Event.submittedSlot, Event.drainedSlot]
  · refine ⟨TraceExt.of_eq [Event.fopen fullSavePath] rfl ?_, rfl, rfl⟩
    simp [Event.quiet, Event.submittedSlot, Event.drainedSlot]
  · refine ⟨TraceExt.of_eq [Event.fopen fullSavePath] rfl ?_, rfl, rfl⟩
    simp [Event.quiet, Event.submittedSlot, Event.drainedSlot]

/-- One iteration of the allocation loop makes only quiet calls and touches neither the slot
count, the flag nor the queue. -/
theorem allocateIOBuffers_body_quiet (env : Env) (width height inputFormat i : Nat)
    (s : NVEncoder) :
    TraceExt Event.quiet s (allocateIOBuffers_body env width height inputFormat i s).1 ∧
      (allocateIOBuffers_body env width height inputFormat i s).1.encodeBufferCount_
        = s.encodeBufferCount_ ∧
      (allocateIOBuffers_body env width height inputFormat i s).1.encodingInitiated_
        = s.encodingInitiated_ ∧
      (allocateIOBuffers_body env width height inputFormat i s).1.encodeBufferQueue_
        = s.encodeBufferQueue_ := by
  unfold allocateIOBuffers_body
  simp only []
  split_ifs
  · refine ⟨TraceExt.of_eq [Event.NvEncCreateInputBuffer width height inputFormat] ?_ ?_,
      ?_, ?_, ?_⟩
    · simp
    · simp [Event.quiet, Event.submittedSlot, Event.drainedSlot]
    · simp
    · simp
    · simp
  · refine ⟨TraceExt.of_eq [Event.NvEncCreateInputBuffer width height inputFormat,
      Event.NvEncCreateBitstreamBuffer env.BITSTREAM_BUFFER_SIZE] ?_ ?_, ?_, ?_, ?_⟩
    · simp
    · simp [Event.quiet, Event.submittedSlot, Event.drainedSlot]
    · simp
    · simp
    · simp
  · refine ⟨TraceExt.of_eq [Event.NvEncCreateInputBuffer width height inputFormat,
      Event.NvEncCreateBitstreamBuffer env.BITSTREAM_BUFFER_SIZE,
      Event.NvEncRegisterAsyncEvent] ?_ ?_, ?_, ?_, ?_⟩
    · simp
    · simp [Event.quiet, Event.submittedSlot, Event.drainedSlot]
    · simp
    · simp
    · simp
  · refine ⟨TraceExt.of_eq [Event.NvEncCreateInputBuffer width height inputFormat,
      Event.NvEncCreateBitstreamBuffer env.BITSTREAM_BUFFER_SIZE,
      Event.NvEncRegisterAsyncEvent] ?_ ?_, ?_, ?_, ?_⟩
    · simp
    · simp [Event.quiet, Event.submittedSlot, Event.drainedSlot]
    · simp
    · simp
    · simp

/-- The allocation loop makes only quiet calls and touches neither the slot count, the flag
nor the queue. -/
theorem allocateIOBuffers_loop_quiet (env : Env) (width height inputFormat : Nat) (n : Nat)
    (s : NVEncoder) :
    TraceExt Event.quiet s (allocateIOBuffers_loop env width height inputFormat n s).1 ∧
      (allocateIOBuffers_loop env width height inputFormat n s).1.encodeBufferCount_
        = s.encodeBufferCount_ ∧
      (allocateIOBuffers_loop env width height inputFormat n s).1.encodingInitiated_
        = s.encodingInitiated_ ∧
      (allocateIOBuffers_loop env width height inputFormat n s).1.encodeBufferQueue_
        = s.encodeBufferQueue_ := by
  induction n with
  | zero => exact ⟨TraceExt.refl _ _, rfl, rfl, rfl⟩
  | succ n ih =>
    unfold allocateIOBuffers_loop
    rcases hr : allocateIOBuffers_loop env width height inputFormat n s with ⟨s1, _ | st⟩
    · rw [hr] at ih
      simp only []
      have hb := allocateIOBuffers_body_quiet env width height inputFormat n s1
      exact ⟨ih.1.trans hb.1, hb.2.1.trans ih.2.1, hb.2.2.1.trans ih.2.2.1,
        hb.2.2.2.trans ih.2.2.2⟩
    · rw [hr] at ih
      exact ih

/-- `allocateIOBuffers` makes only quiet calls, leaves the slot count and the flag alone and
leaves the queue freshly initialised with as many slots as the slot count. -/
theorem allocateIOBuffers_quiet (env : Env) (width height inputFormat : Nat) (s : NVEncoder) :
    TraceExt Event.quiet s (allocateIOBuffers env width height inputFormat s).1 ∧
      (allocateIOBuffers env width height inputFormat s).1.encodeBufferCount_
        = s.encodeBufferCount_ ∧
      (allocateIOBuffers env width height inputFormat s).1.encodingInitiated_
        = s.encodingInitiated_ ∧
      (allocateIOBuffers env width height inputFormat s).1.encodeBufferQueue_
        = BufferRingQueue.init s.encodeBufferCount_ := by
  unfold allocateIOBuffers
  simp only []
  have hc : (s.setQueue (BufferRingQueue.init s.encodeBufferCount_)).encodeBufferCount_
      = s.encodeBufferCount_ := rfl
  rw [hc]
  have hl := allocateIOBuffers_loop_quiet env width height inputFormat s.encodeBufferCount_
    (s.setQueue (BufferRingQueue.init s.encodeBufferCount_))
  rcases hr : allocateIOBuffers_loop env width height inputFormat s.encodeBufferCount_
    (s.setQueue (BufferRingQueue.init s.encodeBufferCount_)) with ⟨s1, _ | st⟩
  · rw [hr] at hl
    simp only []
    have h1 : TraceExt Event.quiet s s1 := hl.1
    refine ⟨?_, hl.2.1, hl.2.2.1, hl.2.2.2⟩
    exact (TraceExt.log Event.NvEncRegisterAsyncEvent (h1.of_trace_eq rfl)
      ⟨rfl, rfl⟩).of_trace_eq rfl
  · rw [hr] at hl
    exact hl

/-- The initialisation block of `encodeProcess` makes only quiet calls and keeps the slot
count.  Left without an early return, the session is initiated, and the queue is the one it
found (session already initiated) or a queue freshly initialised with as many slots as the
slot count (session initiated by this call).  Left by an early return, the session is not
initiated. -/
theorem encodeProcess_init_facts (env : Env) (fullSavePath : String) (bitrate fps : Int)
    (s : NVEncoder) :
    TraceExt Event.quiet s (encodeProcess_init env fullSavePath bitrate fps s).1 ∧
      (encodeProcess_init env fullSavePath bitrate fps s).1.encodeBufferCount_
        = s.encodeBufferCount_ ∧
      ((encodeProcess_init env fullSavePath bitrate fps s).2 = none →
        (encodeProcess_init env fullSavePath bitrate fps s).1.encodingInitiated_ = true ∧
        (s.encodingInitiated_ = true →
          (encodeProcess_init env fullSavePath bitrate fps s).1 = s) ∧
        (s.encodingInitiated_ = false →
          (encodeProcess_init env fullSavePath bitrate fps s).1.encodeBufferQueue_
            = BufferRingQueue.init s.encodeBufferCount_)) ∧
      ((encodeProcess_init env fullSavePath bitrate fps s).2 ≠ none →
        (encodeProcess_init env fullSavePath bitrate fps s).1.encodingInitiated_ = false) := by
  by_cases hflag : s.encodingInitiated_ = false
  · obtain ⟨c1, c2, c3⟩ := setEncodeConfigs_quiet env fullSavePath s.globalTexDesc_.Width
      s.globalTexDesc_.Height bitrate fps s
    by_cases hcfg : (setEncodeConfigs env fullSavePath s.globalTexDesc_.Width
        s.globalTexDesc_.Height bitrate fps s).2 = FBCAPTURE_STATUS_OK
    · by_cases hce : env.CreateEncoder
          (((setEncodeConfigs env fullSavePath s.globalTexDesc_.Width
            s.globalTexDesc_.Height bitrate fps s).1.log Event.GetPresetGUID).log
              Event.CreateEncoder).trace = NV_ENC_SUCCESS
      · obtain ⟨a1, a2, a3, a4⟩ := allocateIOBuffers_quiet env
          (((setEncodeConfigs env fullSavePath s.globalTexDesc_.Width
            s.globalTexDesc_.Height bitrate fps s).1.log Event.GetPresetGUID).log
              Event.CreateEncoder).encodeConfig_.width
          (((setEncodeConfigs env fullSavePath s.globalTexDesc_.Width
            s.globalTexDesc_.Height bitrate fps s).1.log Event.GetPresetGUID).log
              Event.CreateEncoder).encodeConfig_.height
          (((setEncodeConfigs env fullSavePath s.globalTexDesc_.Width
            s.globalTexDesc_.Height bitrate fps s).1.log Event.GetPresetGUID).log
              Event.CreateEncoder).encodeConfig_.inputFormat
          (((setEncodeConfigs env fullSavePath s.globalTexDesc_.Width
            s.globalTexDesc_.Height bitrate fps s).1.log Event.GetPresetGUID).log
              Event.CreateEncoder)
        have hpre : TraceExt Event.quiet s
            (((setEncodeConfigs env fullSavePath s.globalTexDesc_.Width
              s.globalTexDesc_.Height bitrate fps s).1.log Event.GetPresetGUID).log
                Event.CreateEncoder) :=
          TraceExt.log _ (TraceExt.log _ c1 ⟨rfl, rfl⟩) ⟨rfl, rfl⟩
        simp only [log_encodeBufferCount_, log_encodingInitiated_] at a2 a3 a4
        by_cases hal : (allocateIOBuffers env
            (((setEncodeConfigs env fullSavePath s.globalTexDesc_.Width
              s.globalTexDesc_.Height bitrate fps s).1.log Event.GetPresetGUID).log
                Event.CreateEncoder).encodeConfig_.width
            (((setEncodeConfigs env fullSavePath s.globalTexDesc_.Width
              s.globalTexDesc_.Height bitrate fps s).1.log Event.GetPresetGUID).log
                Event.CreateEncoder).encodeConfig_.height
            (((setEncodeConfigs env fullSavePath s.globalTexDesc_.Width
              s.globalTexDesc_.Height bitrate fps s).1.log Event.GetPresetGUID).log
                Event.CreateEncoder).encodeConfig_.inputFormat
            (((setEncodeConfigs env fullSavePath s.globalTexDesc_.Width
              s.globalTexDesc_.Height bitrate fps s).1.log Event.GetPresetGUID).log
                Event.CreateEncoder)).2 = NV_ENC_SUCCESS
        · have he : encodeProcess_init env fullSavePath bitrate fps s
              = ({ (allocateIOBuffers env
                    (((setEncodeConfigs env fullSavePath s.globalTexDesc_.Width
                      s.globalTexDesc_.Height bitrate fps s).1.log Event.GetPresetGUID).log
                        Event.CreateEncoder).encodeConfig_.width
                    (((setEncodeConfigs env fullSavePath s.globalTexDesc_.Width
                      s.globalTexDesc_.Height bitrate fps s).1.log Event.GetPresetGUID).log
                        Event.CreateEncoder).encodeConfig_.height
                    (((setEncodeConfigs env fullSavePath s.globalTexDesc_.Width
                      s.globalTexDesc_.Height bitrate fps s).1.log Event.GetPresetGUID).log
                        Event.CreateEncoder).encodeConfig_.inputFormat
                    (((setEncodeConfigs env fullSavePath s.globalTexDesc_.Width
                      s.globalTexDesc_.Height bitrate fps s).1.log Event.GetPresetGUID).log
                        Event.CreateEncoder)).1.log Event.setTextureDirtyRegion with
                  encodingInitiated_ := true }, none) := by
            unfold encodeProcess_init
            simp only [hflag, if_true, hcfg, ne_eq, not_true_eq_false, if_false, hce, hal]
          rw [he]
          refine ⟨?_, ?_, fun _ => ⟨rfl, fun h => ?_, fun _ => ?_⟩, fun h => absurd rfl h⟩
          · exact (TraceExt.log Event.setTextureDirtyRegion (hpre.trans a1)
              ⟨rfl, rfl⟩).of_trace_eq rfl
          · exact a2.trans c2
          · rw [hflag] at h
            exact absurd h (by decide)
          · show (allocateIOBuffers env _ _ _ _).1.encodeBufferQueue_ = _
            rw [a4, c2]
        · unfold encodeProcess_init
          simp only [hflag, if_true, hcfg, ne_eq, not_true_eq_false, if_false, hce, hal,
            not_false_eq_true]
          refine ⟨hpre.trans a1, a2.trans c2, fun h => ?_, fun _ => ?_⟩
          · exact absurd h (by simp)
          · exact a3.trans (c3.trans hflag)
      · unfold encodeProcess_init
        simp only [hflag, if_true, hcfg, ne_eq, not_true_eq_false, if_false, hce,
          not_false_eq_true]
        refine ⟨TraceExt.log _ (TraceExt.log _ c1 ⟨rfl, rfl⟩) ⟨rfl, rfl⟩, c2,
          fun h => ?_, fun _ => ?_⟩
        · exact absurd h (by simp)
        · exact c3.trans hflag
    · unfold encodeProcess_init
      simp only [hflag, if_true, hcfg, ne_eq, not_false_eq_true]
      refine ⟨c1, c2, fun h => ?_, fun _ => c3.trans hflag⟩
      exact absurd h (by simp)
  · have htrue : s.encodingInitiated_ = true := by
      cases h : s.encodingInitiated_ with
      | false => exact absurd h hflag
      | true => rfl
    have he : encodeProcess_init env fullSavePath bitrate fps s = (s, none) := by
      unfold encodeProcess_init
      simp only [htrue, Bool.true_eq_false, if_false]
    rw [he]
    refine ⟨TraceExt.refl _ _, rfl, fun _ => ⟨htrue, fun _ => rfl, fun h => ?_⟩,
      fun h => absurd rfl h⟩
    rw [htrue] at h
    exact absurd h (by decide)

/-- `copyReources` makes only quiet calls and touches neither the slot count, the flag, the
queue nor the slots; once the texture is mapped the buffer it locks is the input surface of
slot 0. -/
theorem copyReources_quiet (env : Env) (width height : Nat) (s : NVEncoder) :
    TraceExt Event.quiet s (copyReources env width height s).1 ∧
      (copyReources env width height s).1.encodeBufferCount_ = s.encodeBufferCount_ ∧
      (copyReources env width height s).1.encodingInitiated_ = s.encodingInitiated_ ∧
      (copyReources env width height s).1.encodeBufferQueue_ = s.encodeBufferQueue_ ∧
      (copyReources env width height s).1.encodeBuffer_ = s.encodeBuffer_ ∧
      (env.mapTexture (s.trace ++ [Event.mapTexture]) = FBCAPTURE_STATUS_OK →
        ∃ u, (copyReources env width height s).1.trace
          = s.trace ++ [Event.mapTexture,
              Event.NvEncLockInputBuffer (s.encodeBuffer_ 0).stInputBfr.hInputSurface] ++ u) := by
  unfold copyReources
  simp only []
  split_ifs with h1 h2 h3
  · refine ⟨TraceExt.of_eq [Event.mapTexture] rfl ?_, by simp, by simp, by simp, by simp,
      fun h => absurd h h1⟩
    simp [Event.quiet, Event.submittedSlot, Event.drainedSlot]
  · refine ⟨TraceExt.of_eq [Event.mapTexture,
        Event.NvEncLockInputBuffer (s.encodeBuffer_ 0).stInputBfr.hInputSurface] ?_ ?_,
      by simp, by simp, by simp, by simp, fun _ => ⟨[], ?_⟩⟩
    · simp
    · simp [Event.quiet, Event.submittedSlot, Event.drainedSlot]
    · simp
  · refine ⟨TraceExt.of_eq [Event.mapTexture,
        Event.NvEncLockInputBuffer (s.encodeBuffer_ 0).stInputBfr.hInputSurface,
        Event.memcpy height,
        Event.NvEncUnlockInputBuffer (s.encodeBuffer_ 0).stInputBfr.hInputSurface] ?_ ?_,
      by simp, by simp, by simp, by simp, fun _ => ⟨[Event.memcpy height,
        Event.NvEncUnlockInputBuffer (s.encodeBuffer_ 0).stInputBfr.hInputSurface], ?_⟩⟩
    · simp
    · simp [Event.quiet, Event.submittedSlot, Event.drainedSlot]
    · simp
  · refine ⟨TraceExt.of_eq [Event.mapTexture,
        Event.NvEncLockInputBuffer (s.encodeBuffer_ 0).stInputBfr.hInputSurface,
        Event.memcpy height,
        Event.NvEncUnlockInputBuffer (s.encodeBuffer_ 0).stInputBfr.hInputSurface,
        Event.Unmap s.encodingTexure_] ?_ ?_,
      by simp, by simp, by simp, by simp, fun _ => ⟨[Event.memcpy height,
        Event.NvEncUnlockInputBuffer (s.encodeBuffer_ 0).stInputBfr.hInputSurface,
        Event.Unmap s.encodingTexure_], ?_⟩⟩
    · simp
    · simp [Event.quiet, Event.submittedSlot, Event.drainedSlot]
    · simp

/-- `getAvailable` on a queue that is not full leaves `oldestPending` alone and counts one
more pending slot. -/
theorem getAvailable_not_full_more (q : BufferRingQueue) (h : q.pending ≠ q.capacity) :
    q.getAvailable.2.oldestPending = q.oldestPending ∧
      q.getAvailable.2.pending = q.pending + 1 := by
  simp [BufferRingQueue.getAvailable, h]

/-- One call of `encodeFrame` on a consistent queue: the calls it makes (a drain of the oldest
pending slot first when the queue is full, then the submission of the slot at
`nextAvailable`), its status (the backend's answer to the submission), and the queue it
leaves. -/
theorem encodeFrame_step (env : Env) (width height inputformat : Nat) (s : NVEncoder)
    (hwf : QueueWF s.encodeBufferQueue_) :
    (encodeFrame env width height inputformat s).1.trace
        = s.trace
          ++ (if s.encodeBufferQueue_.pending = s.encodeBufferQueue_.capacity
              then [Event.ProcessOutput (some s.encodeBufferQueue_.oldestPending)] else [])
          ++ [Event.NvEncEncodeFrame (some s.encodeBufferQueue_.nextAvailable) width height] ∧
      (encodeFrame env width height inputformat s).2
        = env.NvEncEncodeFrame (encodeFrame env width height inputformat s).1.trace ∧
      QueueWF (encodeFrame env width height inputformat s).1.encodeBufferQueue_ ∧
      (encodeFrame env width height inputformat s).1.encodeBufferQueue_.capacity
        = s.encodeBufferQueue_.capacity ∧
      (encodeFrame env width height inputformat s).1.encodeBufferQueue_.nextAvailable
        = (s.encodeBufferQueue_.nextAvailable + 1) % s.encodeBufferQueue_.capacity ∧
      (if s.encodeBufferQueue_.pending = s.encodeBufferQueue_.capacity
        then s.encodeBufferQueue_.oldestPending
          :: (encodeFrame env width height inputformat s).1.encodeBufferQueue_.pendingSlots
        else (encodeFrame env width height inputformat s).1.encodeBufferQueue_.pendingSlots)
        = s.encodeBufferQueue_.pendingSlots ++ [s.encodeBufferQueue_.nextAvailable] ∧
      (encodeFrame env width height inputformat s).1.encodeBuffer_ = s.encodeBuffer_ ∧
      (encodeFrame env width height inputformat s).1.eosOutputBfr_ = s.eosOutputBfr_ ∧
      (encodeFrame env width height inputformat s).1.encodeBufferQueue_.oldestPending
        = (if s.encodeBufferQueue_.pending = s.encodeBufferQueue_.capacity
            then (s.encodeBufferQueue_.oldestPending + 1) % s.encodeBufferQueue_.capacity
            else s.encodeBufferQueue_.oldestPending) ∧
      (encodeFrame env width height inputformat s).1.encodeBufferQueue_.pending
        = (if s.encodeBufferQueue_.pending = s.encodeBufferQueue_.capacity
            then s.encodeBufferQueue_.pending else s.encodeBufferQueue_.pending + 1) ∧
      (encodeFrame env width height inputformat s).1.encodeBufferCount_
        = s.encodeBufferCount_ ∧
      (encodeFrame env width height inputformat s).1.encodingInitiated_
        = s.encodingInitiated_ := by
  by_cases hfull : s.encodeBufferQueue_.pending = s.encodeBufferQueue_.capacity
  · have hne : s.encodeBufferQueue_.pending ≠ 0 := by
      have := hwf.1
      omega
    obtain ⟨g1, g2, g3, g4, g5, g6⟩ := getPending_not_empty _ hwf hne
    have hnf : s.encodeBufferQueue_.getPending.2.pending
        ≠ s.encodeBufferQueue_.getPending.2.capacity := by
      have := hwf.1
      omega
    obtain ⟨a1, a2, a3, a4, a5⟩ := getAvailable_not_full _ g2 hnf
    have he : encodeFrame env width height inputformat s
        = ((((s.setQueue s.encodeBufferQueue_.getPending.2).log
              (Event.ProcessOutput (some s.encodeBufferQueue_.oldestPending))).setQueue
              s.encodeBufferQueue_.getPending.2.getAvailable.2).log
            (Event.NvEncEncodeFrame (some s.encodeBufferQueue_.nextAvailable) width height),
          env.NvEncEncodeFrame
            ((((s.setQueue s.encodeBufferQueue_.getPending.2).log
              (Event.ProcessOutput (some s.encodeBufferQueue_.oldestPending))).setQueue
              s.encodeBufferQueue_.getPending.2.getAvailable.2).log
            (Event.NvEncEncodeFrame (some s.encodeBufferQueue_.nextAvailable) width
              height)).trace) := by
      unfold encodeFrame
      simp only [getAvailable_full _ hfull, setQueue_encodeBufferQueue_, if_true,
        log_encodeBufferQueue_, g1, a1, g4, setQueue_self]
    rw [he]
    obtain ⟨m1, m2⟩ := getAvailable_not_full_more _ hnf
    have go : s.encodeBufferQueue_.getPending.2.oldestPending
        = (s.encodeBufferQueue_.oldestPending + 1) % s.encodeBufferQueue_.capacity := by
      rw [getPending_nonempty _ hne]
    refine ⟨?_, rfl, a2, a3.trans g3, ?_, ?_, rfl, rfl, ?_, ?_, rfl, rfl⟩
    · simp only [hfull, if_true, log_trace, setQueue_trace, List.append_assoc]
    · show s.encodeBufferQueue_.getPending.2.getAvailable.2.nextAvailable = _
      rw [a4, g4, g3]
    · simp only [hfull, if_true]
      show s.encodeBufferQueue_.oldestPending
          :: s.encodeBufferQueue_.getPending.2.getAvailable.2.pendingSlots = _
      rw [a5, g6, g4]
      rfl
    · simp only [hfull, if_true]
      show s.encodeBufferQueue_.getPending.2.getAvailable.2.oldestPending = _
      rw [m1, go]
    · simp only [hfull, if_true]
      show s.encodeBufferQueue_.getPending.2.getAvailable.2.pending = _
      rw [m2, g5, hfull]
      have := hwf.1
      omega
  · obtain ⟨a1, a2, a3, a4, a5⟩ := getAvailable_not_full _ hwf hfull
    have he : encodeFrame env width height inputformat s
        = ((s.setQueue s.encodeBufferQueue_.getAvailable.2).log
            (Event.NvEncEncodeFrame (some s.encodeBufferQueue_.nextAvailable) width height),
          env.NvEncEncodeFrame
            ((s.setQueue s.encodeBufferQueue_.getAvailable.2).log
            (Event.NvEncEncodeFrame (some s.encodeBufferQueue_.nextAvailable) width
              height)).trace) := by
      unfold encodeFrame
      simp only [a1, reduceCtorEq, if_false]
    rw [he]
    obtain ⟨m1, m2⟩ := getAvailable_not_full_more _ hfull
    refine ⟨?_, rfl, a2, a3, a4, ?_, rfl, rfl, ?_, ?_, rfl, rfl⟩
    · simp only [hfull, if_false, log_trace, setQueue_trace, List.append_nil]
    · simp only [hfull, if_false]
      exact a5
    · simp only [hfull, if_false]
      exact m1
    · simp only [hfull, if_false]
      exact m2

/-- One call of `encodeFrame` in a session of capacity `C` whose queue agrees with the calls
`t` recorded so far: it drains slot `(number of drains) mod C` first exactly when `C`
submissions are not yet drained, then submits slot `(number of submissions) mod C`, and the
queue it leaves agrees with the calls recorded after it. -/
theorem encodeFrame_inv (env : Env) (width height inputformat : Nat) (s : NVEncoder)
    (C : Nat) (t : List Event) (hq : QueueInv C s.encodeBufferQueue_ t) :
    (encodeFrame env width height inputformat s).1.trace
        = s.trace
          ++ ((if (submitted t).length = (drained t).length + C
                then [Event.ProcessOutput (some ((drained t).length % C))] else [])
              ++ [Event.NvEncEncodeFrame (some ((submitted t).length % C)) width height]) ∧
      QueueInv C (encodeFrame env width height inputformat s).1.encodeBufferQueue_
        (t ++ ((if (submitted t).length = (drained t).length + C
                then [Event.ProcessOutput (some ((drained t).length % C))] else [])
              ++ [Event.NvEncEncodeFrame (some ((submitted t).length % C)) width height])) := by
  obtain ⟨wf, cap, na, old, cnt, lst⟩ := hq
  obtain ⟨e1, -, e3, e4, e5, e6, -, -, e9, e10, -, -⟩ :=
    encodeFrame_step env width height inputformat s wf
  have hsubE : ∀ p : Option Nat,
      submitted [Event.NvEncEncodeFrame p width height] = [p] := fun _ => rfl
  have hdrE : ∀ p : Option Nat,
      drained [Event.NvEncEncodeFrame p width height] = [] := fun _ => rfl
  have hsubP : ∀ p : Option Nat, submitted [Event.ProcessOutput p] = [] := fun _ => rfl
  have hdrP : ∀ p : Option Nat, drained [Event.ProcessOutput p] = [p] := fun _ => rfl
  by_cases hfull : s.encodeBufferQueue_.pending = s.encodeBufferQueue_.capacity
  · have hcond : (submitted t).length = (drained t).length + C := by omega
    simp only [hfull, if_true] at e1 e6 e9 e10
    rw [if_pos hcond]
    refine ⟨?_, e3, e4.trans cap, ?_, ?_, ?_, ?_⟩
    · rw [e1, na, old, List.append_assoc]
    · rw [e5, na, cap, Nat.mod_add_mod, submitted_append, submitted_append, hsubP, hsubE]
      simp
    · rw [e9, old, cap, Nat.mod_add_mod, drained_append, drained_append, hdrP, hdrE]
      simp
    · rw [submitted_append, submitted_append, hsubP, hsubE, drained_append, drained_append,
        hdrP, hdrE, e10]
      simp only [List.nil_append, List.append_nil, List.length_append, List.length_singleton]
      omega
    · rw [← na, ← old, submitted_append, submitted_append, hsubP, hsubE, drained_append,
        drained_append, hdrP, hdrE, lst]
      have e6' := congrArg (List.map some) e6
      simp only [List.map_cons, List.map_append, List.map_nil] at e6'
      simp only [List.nil_append, List.append_nil, List.append_assoc, List.singleton_append]
      rw [e6']
  · have hcond : ¬ (submitted t).length = (drained t).length + C := by omega
    simp only [hfull, if_false] at e1 e6 e9 e10
    simp only [hcond, if_false, List.nil_append]
    refine ⟨?_, e3, e4.trans cap, ?_, ?_, ?_, ?_⟩
    · rw [e1, na, List.append_nil]
    · rw [e5, na, cap, Nat.mod_add_mod, submitted_append, hsubE]
      simp
    · rw [e9, old, drained_append, hdrE, List.append_nil]
    · rw [submitted_append, hsubE, drained_append, hdrE, e10]
      simp only [List.append_nil, List.length_append, List.length_singleton]
      omega
    · rw [← na, submitted_append, hsubE, drained_append, hdrE, lst, e6]
      simp

/-- Only the submissions and drains of the recorded calls matter to `QueueInv`. -/
theorem QueueInv.congr {C : Nat} {q : BufferRingQueue} {t u : List Event}
    (h : QueueInv C q t) (hs : submitted u = submitted t) (hd : drained u = drained t) :
    QueueInv C q u := by
  unfold QueueInv at h ⊢
  rw [hs, hd]
  exact h

/-- A freshly initialised queue agrees with a trace without submission and drain. -/
theorem QueueInv.of_fresh_queue (C : Nat) (hC : 1 ≤ C) (t : List Event) (hs : submitted t = [])
    (hd : drained t = []) : QueueInv C (BufferRingQueue.init C) t := by
  unfold QueueInv
  rw [hs, hd]
  refine ⟨init_wf C hC, rfl, ?_, ?_, rfl, ?_⟩
  · simp [BufferRingQueue.init]
  · simp [BufferRingQueue.init]
  · simp [BufferRingQueue.init, BufferRingQueue.pendingSlots]

/-- The session invariant survives quiet calls that leave slot count, flag and queue alone. -/
theorem SessionInv.quiet {s0 s s2 : NVEncoder} (h : SessionInv s0 s)
    (hq : TraceExt Event.quiet s s2) (hc : s2.encodeBufferCount_ = s.encodeBufferCount_)
    (hf : s2.encodingInitiated_ = s.encodingInitiated_)
    (hQ : s2.encodeBufferQueue_ = s.encodeBufferQueue_) : SessionInv s0 s2 := by
  obtain ⟨h1, t, ht, hF, hT⟩ := h
  obtain ⟨u, hu, hP⟩ := hq
  obtain ⟨q1, q2⟩ := quiet_nil u hP
  refine ⟨hc.trans h1, t ++ u, by rw [hu, ht, List.append_assoc], ?_, ?_⟩
  · intro hfl
    rw [hf] at hfl
    obtain ⟨a, b⟩ := hF hfl
    rw [submitted_append, drained_append, a, b, q1, q2]
    exact ⟨rfl, rfl⟩
  · intro hfl
    rw [hf] at hfl
    rw [hQ]
    exact (hT hfl).congr (by rw [submitted_append, q1, List.append_nil])
      (by rw [drained_append, q2, List.append_nil])

/-- On an initiated session the initialisation block of `encodeProcess` does nothing. -/
theorem encodeProcess_init_initiated (env : Env) (fullSavePath : String) (bitrate fps : Int)
    (s : NVEncoder) (h : s.encodingInitiated_ = true) :
    encodeProcess_init env fullSavePath bitrate fps s = (s, none) := by
  unfold encodeProcess_init
  simp only [h, Bool.true_eq_false, if_false]

/-- The session invariant survives the initialisation block of `encodeProcess`. -/
theorem SessionInv.after_init {s0 s : NVEncoder} (env : Env) (fullSavePath : String)
    (bitrate fps : Int) (h : SessionInv s0 s) (hC : 1 ≤ s0.encodeBufferCount_) :
    SessionInv s0 (encodeProcess_init env fullSavePath bitrate fps s).1 := by
  by_cases hflag : s.encodingInitiated_ = true
  · rw [encodeProcess_init_initiated env fullSavePath bitrate fps s hflag]
    exact h
  · have hfalse : s.encodingInitiated_ = false := by
      cases hb : s.encodingInitiated_ with
      | false => rfl
      | true => exact absurd hb hflag
    obtain ⟨f1, f2, f3, f4⟩ := encodeProcess_init_facts env fullSavePath bitrate fps s
    obtain ⟨h1, t, ht, hF, -⟩ := h
    obtain ⟨u, hu, hP⟩ := f1
    obtain ⟨q1, q2⟩ := quiet_nil u hP
    obtain ⟨a, b⟩ := hF hfalse
    have hs : submitted (t ++ u) = [] := by rw [submitted_append, a, q1]; rfl
    have hd : drained (t ++ u) = [] := by rw [drained_append, b, q2]; rfl
    refine ⟨f2.trans h1, t ++ u, by rw [hu, ht, List.append_assoc], fun _ => ⟨hs, hd⟩, ?_⟩
    intro htrue
    by_cases hn : (encodeProcess_init env fullSavePath bitrate fps s).2 = none
    · rw [(f3 hn).2.2 hfalse, h1]
      exact QueueInv.of_fresh_queue _ hC _ hs hd
    · rw [f4 hn] at htrue
      exact absurd htrue (by decide)

/-- The session invariant survives `encodeFrame` on an initiated session. -/
theorem SessionInv.frame {s0 s : NVEncoder} (env : Env) (width height inputformat : Nat)
    (h : SessionInv s0 s) (hflag : s.encodingInitiated_ = true) :
    SessionInv s0 (encodeFrame env width height inputformat s).1 := by
  obtain ⟨h1, t, ht, -, hT⟩ := h
  have hq := hT hflag
  obtain ⟨i1, i2⟩ := encodeFrame_inv env width height inputformat s _ t hq
  obtain ⟨-, -, -, -, -, -, -, -, -, -, e11, e12⟩ :=
    encodeFrame_step env width height inputformat s hq.1
  refine ⟨e11.trans h1, _, by rw [i1, ht, List.append_assoc], fun hf => ?_, fun _ => i2⟩
  rw [e12, hflag] at hf
  exact absurd hf (by decide)

/-- `encodeProcess` from the object on which it calls `copyReources`. -/
theorem encodeProcess_of_atCopy (env : Env) (texturePtr : Handle) (fullSavePath : String)
    (bitrate fps : Int) (needFlipping : Bool) (s c : NVEncoder)
    (h : atCopy env texturePtr fullSavePath bitrate fps s = some c) :
    encodeProcess env texturePtr fullSavePath bitrate fps needFlipping s
      = (if (copyReources env c.encodeConfig_.width c.encodeConfig_.height c).2
            ≠ NV_ENC_SUCCESS
          then ((copyReources env c.encodeConfig_.width c.encodeConfig_.height c).1,
            FBCAPTURE_STATUS_TEXTURE_RESOURCES_COPY_FAILED)
          else if (encodeFrame env
              (copyReources env c.encodeConfig_.width c.encodeConfig_.height
                c).1.encodeConfig_.width
              (copyReources env c.encodeConfig_.width c.encodeConfig_.height
                c).1.encodeConfig_.height
              (copyReources env c.encodeConfig_.width c.encodeConfig_.height
                c).1.encodeConfig_.inputFormat
              (copyReources env c.encodeConfig_.width c.encodeConfig_.height c).1).2
            ≠ NV_ENC_SUCCESS
          then ((encodeFrame env
              (copyReources env c.encodeConfig_.width c.encodeConfig_.height
                c).1.encodeConfig_.width
              (copyReources env c.encodeConfig_.width c.encodeConfig_.height
                c).1.encodeConfig_.height
              (copyReources env c.encodeConfig_.width c.encodeConfig_.height
                c).1.encodeConfig_.inputFormat
              (copyReources env c.encodeConfig_.width c.encodeConfig_.height c).1).1,
            FBCAPTURE_STATUS_ENCODE_PICTURE_FAILED)
          else ((encodeFrame env
              (copyReources env c.encodeConfig_.width c.encodeConfig_.height
                c).1.encodeConfig_.width
              (copyReources env c.encodeConfig_.width c.encodeConfig_.height
                c).1.encodeConfig_.height
              (copyReources env c.encodeConfig_.width c.encodeConfig_.height
                c).1.encodeConfig_.inputFormat
              (copyReources env c.encodeConfig_.width c.encodeConfig_.height c).1).1,
            FBCAPTURE_STATUS_OK)) := by
  unfold atCopy at h
  simp only [] at h
  by_cases h1 : (createD3D11Resources env texturePtr s).2 = FBCAPTURE_STATUS_OK
  · by_cases h2 : (createD3D11Resources env texturePtr s).1.globalTexDesc_.Width > 4096 ∨
        (createD3D11Resources env texturePtr s).1.globalTexDesc_.Height > 4096
    · simp only [h1, ne_eq, not_true_eq_false, if_false, h2, if_true, reduceCtorEq] at h
    · simp only [h1, ne_eq, not_true_eq_false, if_false, h2] at h
      rcases hr : encodeProcess_init env fullSavePath bitrate fps
        (createD3D11Resources env texturePtr s).1 with ⟨s1, _ | st⟩
      · rw [hr] at h
        simp only [Option.some.injEq] at h
        subst h
        unfold encodeProcess
        simp only [h1, ne_eq, not_true_eq_false, if_false, h2, hr]
      · rw [hr] at h
        simp only [reduceCtorEq] at h
  · simp only [h1, ne_eq, not_false_eq_true, if_true, reduceCtorEq] at h

/-- The object on which `encodeProcess` calls `copyReources` belongs to the session, which is
initiated there. -/
theorem SessionInv.atCopy {s0 s c : NVEncoder} (env : Env) (texturePtr : Handle)
    (fullSavePath : String) (bitrate fps : Int) (h : SessionInv s0 s)
    (hC : 1 ≤ s0.encodeBufferCount_)
    (hc : atCopy env texturePtr fullSavePath bitrate fps s = some c) :
    SessionInv s0 c ∧ c.encodingInitiated_ = true := by
  have htex : SessionInv s0 (createD3D11Resources env texturePtr s).1 :=
    h.quiet (TraceExt.of_eq [Event.createD3D11Resources texturePtr] rfl
      (by simp [Event.quiet, Event.submittedSlot, Event.drainedSlot])) rfl rfl rfl
  have hinit := htex.after_init env fullSavePath bitrate fps hC
  obtain ⟨-, -, f3, -⟩ := encodeProcess_init_facts env fullSavePath bitrate fps
    (createD3D11Resources env texturePtr s).1
  unfold FBCapture.Video.atCopy at hc
  simp only [] at hc
  split_ifs at hc
  rcases hr : encodeProcess_init env fullSavePath bitrate fps
    (createD3D11Resources env texturePtr s).1 with ⟨s1, _ | st⟩
  · rw [hr] at hc hinit f3
    simp only [Option.some.injEq] at hc
    subst hc
    exact ⟨hinit, (f3 rfl).1⟩
  · rw [hr] at hc
    simp only [reduceCtorEq] at hc

/-- The session invariant survives `encodeProcess`, whatever its arguments and outcome. -/
theorem SessionInv.encodeProcess {s0 s : NVEncoder} (env : Env) (texturePtr : Handle)
    (fullSavePath : String) (bitrate fps : Int) (needFlipping : Bool) (h : SessionInv s0 s)
    (hC : 1 ≤ s0.encodeBufferCount_) :
    SessionInv s0
      (FBCapture.Video.encodeProcess env texturePtr fullSavePath bitrate fps needFlipping s).1 := by
  have htex : SessionInv s0 (createD3D11Resources env texturePtr s).1 :=
    h.quiet (TraceExt.of_eq [Event.createD3D11Resources texturePtr] rfl
      (by simp [Event.quiet, Event.submittedSlot, Event.drainedSlot])) rfl rfl rfl
  cases hc : FBCapture.Video.atCopy env texturePtr fullSavePath bitrate fps s with
  | some c =>
    obtain ⟨ic, fc⟩ := h.atCopy env texturePtr fullSavePath bitrate fps hC hc
    obtain ⟨k1, k2, k3, k4, -, -⟩ :=
      copyReources_quiet env c.encodeConfig_.width c.encodeConfig_.height c
    have icopy := ic.quiet k1 k2 k3 k4
    rw [encodeProcess_of_atCopy env texturePtr fullSavePath bitrate fps needFlipping s c hc]
    split_ifs
    · exact icopy
    · exact icopy.frame env
        (copyReources env c.encodeConfig_.width c.encodeConfig_.height c).1.encodeConfig_.width
        (copyReources env c.encodeConfig_.width c.encodeConfig_.height c).1.encodeConfig_.height
        (copyReources env c.encodeConfig_.width c.encodeConfig_.height
          c).1.encodeConfig_.inputFormat (k3.trans fc)
    · exact icopy.frame env
        (copyReources env c.encodeConfig_.width c.encodeConfig_.height c).1.encodeConfig_.width
        (copyReources env c.encodeConfig_.width c.encodeConfig_.height c).1.encodeConfig_.height
        (copyReources env c.encodeConfig_.width c.encodeConfig_.height
          c).1.encodeConfig_.inputFormat (k3.trans fc)
  | none =>
    have hinit := htex.after_init env fullSavePath bitrate fps hC
    unfold FBCapture.Video.atCopy at hc
    simp only [] at hc
    unfold FBCapture.Video.encodeProcess
    simp only []
    split_ifs at hc ⊢
    · exact htex
    · exact htex
    · rcases hr : encodeProcess_init env fullSavePath bitrate fps
        (createD3D11Resources env texturePtr s).1 with ⟨s1, _ | st⟩
      · rw [hr] at hc
        simp only [reduceCtorEq] at hc
      · rw [hr] at hinit
        exact hinit

/-- Every object of a session satisfies the session invariant. -/
theorem session_inv (env : Env) (s0 s : NVEncoder) (hC : 1 ≤ s0.encodeBufferCount_)
    (h : Session env s0 s) : SessionInv s0 s := by
  induction h with
  | start h0 =>
    exact ⟨rfl, [], by simp, fun _ => ⟨rfl, rfl⟩, fun h1 => by
      rw [h0] at h1
      exact absurd h1 (by decide)⟩
  | frame s texturePtr fullSavePath bitrate fps needFlipping _ ih =>
    exact ih.encodeProcess env texturePtr fullSavePath bitrate fps needFlipping hC

/-- The loop of `flushEncoder`, entered on a consistent queue with the pointer `buf` already
taken from it: it makes no submission, it drains `buf` and then the pending slots, oldest
first, and it leaves the queue empty. -/
theorem flushEncoder_loop_drains (env : Env) (fuel : Nat) :
    ∀ (s : NVEncoder) (buf : Option Nat) (nvStatus : NVENCSTATUS) (r : NVEncoder × NVENCSTATUS),
      flushEncoder_loop env fuel s buf nvStatus = some r →
      QueueWF s.encodeBufferQueue_ →
      (buf = none → s.encodeBufferQueue_.pending = 0) →
      submitted r.1.trace = submitted s.trace ∧
        drained r.1.trace
          = drained s.trace ++ (buf.toList ++ s.encodeBufferQueue_.pendingSlots).map some ∧
        r.1.encodeBufferQueue_.pending = 0 := by
  have hnone : ∀ (fuel : Nat) (s : NVEncoder) (nvStatus : NVENCSTATUS)
      (r : NVEncoder × NVENCSTATUS),
      flushEncoder_loop env fuel s none nvStatus = some r →
      s.encodeBufferQueue_.pending = 0 →
      submitted r.1.trace = submitted s.trace ∧
        drained r.1.trace
          = drained s.trace ++ ((none : Option Nat).toList
              ++ s.encodeBufferQueue_.pendingSlots).map some ∧
        r.1.encodeBufferQueue_.pending = 0 := by
    intro fuel s nvStatus r hr h0
    have hr' : r = (s, nvStatus) := by
      cases fuel <;> simpa [flushEncoder_loop] using hr.symm
    subst hr'
    refine ⟨rfl, ?_, h0⟩
    simp [BufferRingQueue.pendingSlots, h0]
  induction fuel with
  | zero =>
    intro s buf nvStatus r hr hwf hb
    cases buf with
    | none => exact hnone 0 s nvStatus r hr (hb rfl)
    | some b => simp [flushEncoder_loop] at hr
  | succ fuel ih =>
    intro s buf nvStatus r hr hwf hb
    cases buf with
    | none => exact hnone (fuel + 1) s nvStatus r hr (hb rfl)
    | some b =>
      have key : ∀ (S : NVEncoder) (p : Option Nat) (st : NVENCSTATUS),
          flushEncoder_loop env fuel S p st = some r →
          QueueWF S.encodeBufferQueue_ →
          (p = none → S.encodeBufferQueue_.pending = 0) →
          submitted S.trace = submitted s.trace →
          drained S.trace ++ (p.toList ++ S.encodeBufferQueue_.pendingSlots).map some
            = drained s.trace ++ ((some b).toList ++ s.encodeBufferQueue_.pendingSlots).map some →
          submitted r.1.trace = submitted s.trace ∧
            drained r.1.trace
              = drained s.trace
                ++ ((some b).toList ++ s.encodeBufferQueue_.pendingSlots).map some ∧
            r.1.encodeBufferQueue_.pending = 0 := by
        intro S p st hS hW hP e1 e2
        obtain ⟨k1, k2, k3⟩ := ih S p st r hS hW hP
        exact ⟨k1.trans e1, k2.trans e2, k3⟩
      have hsub : ∀ e : Event, Event.submittedSlot e = none →
          submitted (s.trace ++ [e]) = submitted s.trace := by
        intro e he
        simp [submitted, List.filterMap_append, he]
      have hdr : drained (s.trace ++ [Event.ProcessOutput (some b)])
          = drained s.trace ++ [some b] := by
        simp [drained, List.filterMap_append, Event.drainedSlot]
      unfold flushEncoder_loop at hr
      simp only [log_encodeBufferQueue_] at hr
      by_cases h0 : s.encodeBufferQueue_.pending = 0
      · rw [getPending_empty _ h0] at hr
        refine key _ _ _ hr hwf (fun _ => h0) (hsub _ rfl) ?_
        simp only [setQueue_trace, log_trace, hdr, setQueue_encodeBufferQueue_]
        simp [BufferRingQueue.pendingSlots, h0]
      · obtain ⟨g1, g2, g3, g4, g5, g6⟩ := getPending_not_empty _ hwf h0
        simp only [g1] at hr
        split_ifs at hr
        · refine key _ _ _ hr g2 (fun h => absurd h (by simp)) ?_ ?_
          · simp only [setBuf_trace, log_trace, setQueue_trace, submitted_append]
            simp [submitted, Event.submittedSlot]
          · simp only [setBuf_trace, log_trace, setQueue_trace, drained_append, hdr]
            rw [g6]
            simp [drained, Event.drainedSlot]
        · refine key _ _ _ hr g2 (fun h => absurd h (by simp)) (hsub _ rfl) ?_
          simp only [log_trace, setQueue_trace, hdr]
          rw [g6]
          simp

/-- The loop of `flushEncoder` only adds to the trace. -/
theorem flushEncoder_loop_ext (env : Env) (fuel : Nat) :
    ∀ (s : NVEncoder) (buf : Option Nat) (nvStatus : NVENCSTATUS) (r : NVEncoder × NVENCSTATUS),
      flushEncoder_loop env fuel s buf nvStatus = some r →
      TraceExt (fun _ => True) s r.1 := by
  induction fuel with
  | zero =>
    intro s buf nvStatus r hr
    cases buf with
    | none =>
      simp only [flushEncoder_loop, Option.some.injEq] at hr
      subst hr
      exact TraceExt.refl _ _
    | some b => simp [flushEncoder_loop] at hr
  | succ fuel ih =>
    intro s buf nvStatus r hr
    cases buf with
    | none =>
      simp only [flushEncoder_loop, Option.some.injEq] at hr
      subst hr
      exact TraceExt.refl _ _
    | some b =>
      have key : ∀ (S : NVEncoder) (p : Option Nat) (st : NVENCSTATUS),
          flushEncoder_loop env fuel S p st = some r →
          TraceExt (fun _ => True) s S → TraceExt (fun _ => True) s r.1 :=
        fun S p st h hS => hS.trans (ih S p st r h)
      have h1 : TraceExt (fun _ => True) s (s.log (Event.ProcessOutput (some b))) :=
        TraceExt.log _ (TraceExt.refl _ _) trivial
      unfold flushEncoder_loop at hr
      simp only [log_encodeBufferQueue_] at hr
      by_cases h0 : s.encodeBufferQueue_.pending = 0
      · rw [getPending_empty _ h0] at hr
        exact key _ _ _ hr (h1.of_trace_eq rfl)
      · rw [getPending_nonempty _ h0] at hr
        simp only [] at hr
        split_ifs at hr
        · exact key _ _ _ hr ((TraceExt.log _ (h1.of_trace_eq rfl) trivial).of_trace_eq rfl)
        · exact key _ _ _ hr (h1.of_trace_eq rfl)

/-- What `atEncodeFrame` returning an object says: `encodeProcess` got as far as
`copyReources`, and `copyReources` returned `NV_ENC_SUCCESS`. -/
theorem atEncodeFrame_some (env : Env) (texturePtr : Handle) (fullSavePath : String)
    (bitrate fps : Int) (s p : NVEncoder)
    (hp : atEncodeFrame env texturePtr fullSavePath bitrate fps s = some p) :
    ∃ c, atCopy env texturePtr fullSavePath bitrate fps s = some c ∧
      (copyReources env c.encodeConfig_.width c.encodeConfig_.height c).2 = NV_ENC_SUCCESS ∧
      p = (copyReources env c.encodeConfig_.width c.encodeConfig_.height c).1 := by
  unfold atEncodeFrame at hp
  cases hc : atCopy env texturePtr fullSavePath bitrate fps s with
  | none =>
    rw [hc] at hp
    simp at hp
  | some c =>
    rw [hc] at hp
    simp only [] at hp
    by_cases hst : (copyReources env c.encodeConfig_.width c.encodeConfig_.height c).2
        = NV_ENC_SUCCESS
    · rw [if_neg (by simpa using hst)] at hp
      exact ⟨c, rfl, hst, (Option.some.inj hp).symm⟩
    · rw [if_pos hst] at hp
      simp at hp

/-- In a session, the object on which `encodeProcess` calls `encodeFrame` satisfies the
session invariant and is initiated. -/
theorem SessionInv.atEncodeFrame {s0 s p : NVEncoder} (env : Env) (texturePtr : Handle)
    (fullSavePath : String) (bitrate fps : Int) (h : SessionInv s0 s)
    (hC : 1 ≤ s0.encodeBufferCount_)
    (hp : FBCapture.Video.atEncodeFrame env texturePtr fullSavePath bitrate fps s = some p) :
    SessionInv s0 p ∧ p.encodingInitiated_ = true := by
  obtain ⟨c, hc, -, rfl⟩ := atEncodeFrame_some env texturePtr fullSavePath bitrate fps s p hp
  obtain ⟨ic, fc⟩ := h.atCopy env texturePtr fullSavePath bitrate fps hC hc
  obtain ⟨k1, k2, k3, k4, -, -⟩ :=
    copyReources_quiet env c.encodeConfig_.width c.encodeConfig_.height c
  exact ⟨ic.quiet k1 k2 k3 k4, k3.trans fc⟩

/-- On a consistent queue, with a non-null end-of-stream event and the end-of-stream
submission accepted, `flushEncoder` returns, makes no submission, drains the pending slots,
oldest first, and leaves the queue empty. -/
theorem flushEncoder_drains_queue (env : Env) (s : NVEncoder)
    (hwf : QueueWF s.encodeBufferQueue_)
    (heos : s.eosOutputBfr_.hOutputEvent ≠ 0)
    (hflush : env.NvEncFlushEncoderQueue
      (s.trace ++ [Event.NvEncFlushEncoderQueue s.eosOutputBfr_.hOutputEvent]) = NV_ENC_SUCCESS) :
    ∃ f nv u, flushEncoder env s = some (f, nv) ∧
      f.trace = s.trace ++ u ∧
      submitted u = [] ∧
      drained u = s.encodeBufferQueue_.pendingSlots.map some ∧
      f.encodeBufferQueue_.pending = 0 := by
  obtain ⟨r, hr, -, -, -, -, -⟩ := flushEncoder_loop_total env
    s.encodeBufferQueue_.pending
    ((s.log (Event.NvEncFlushEncoderQueue s.eosOutputBfr_.hOutputEvent)).setQueue
      s.encodeBufferQueue_.getPending.2)
    s.encodeBufferQueue_.getPending.1 NV_ENC_SUCCESS (by
      intro hne
      by_cases h0 : s.encodeBufferQueue_.pending = 0
      · rw [getPending_empty _ h0] at hne
        exact absurd rfl hne
      · rw [getPending_nonempty _ h0]
        show s.encodeBufferQueue_.pending - 1 < s.encodeBufferQueue_.pending
        omega)
  have hf1 : env.NvEncFlushEncoderQueue
      (s.log (Event.NvEncFlushEncoderQueue s.eosOutputBfr_.hOutputEvent)).trace
      = NV_ENC_SUCCESS := hflush
  have hfl : flushEncoder env s
      = (if env.WaitForSingleObject
            (r.1.log (Event.WaitForSingleObject r.1.eosOutputBfr_.hOutputEvent 500)).trace
            ≠ true
          then some (r.1.log (Event.WaitForSingleObject r.1.eosOutputBfr_.hOutputEvent 500),
            NV_ENC_ERR_GENERIC)
          else some (r.1.log (Event.WaitForSingleObject r.1.eosOutputBfr_.hOutputEvent 500),
            r.2)) := by
    unfold flushEncoder
    simp only [heos, if_false, hf1, ne_eq, not_true_eq_false, log_encodeBufferQueue_, hr]
  have hwf2 : QueueWF s.encodeBufferQueue_.getPending.2 := by
    by_cases h0 : s.encodeBufferQueue_.pending = 0
    · rw [getPending_empty _ h0]
      exact hwf
    · exact (getPending_not_empty _ hwf h0).2.1
  have hslots : s.encodeBufferQueue_.getPending.1.toList
      ++ s.encodeBufferQueue_.getPending.2.pendingSlots = s.encodeBufferQueue_.pendingSlots := by
    by_cases h0 : s.encodeBufferQueue_.pending = 0
    · rw [getPending_empty _ h0]
      rfl
    · obtain ⟨g1, -, -, -, -, g6⟩ := getPending_not_empty _ hwf h0
      rw [g1, g6]
      rfl
  obtain ⟨k1, k2, k3⟩ := flushEncoder_loop_drains env _ _ _ _ r hr hwf2 (by
    intro hnone
    by_cases h0 : s.encodeBufferQueue_.pending = 0
    · rw [getPending_empty _ h0]
      exact h0
    · rw [(getPending_not_empty _ hwf h0).1] at hnone
      exact absurd hnone (by simp))
  obtain ⟨v, hv, -⟩ := flushEncoder_loop_ext env _ _ _ _ r hr
  simp only [setQueue_trace, setQueue_encodeBufferQueue_, log_trace, hslots] at k1 k2 hv
  rw [hv, submitted_append] at k1
  rw [hv, drained_append] at k2
  have k1v : submitted v = [] := List.append_right_eq_self.mp k1
  have k2v : drained v = s.encodeBufferQueue_.pendingSlots.map some :=
    List.append_cancel_left k2
  have hu : (r.1.log (Event.WaitForSingleObject r.1.eosOutputBfr_.hOutputEvent 500)).trace
      = s.trace ++ ([Event.NvEncFlushEncoderQueue s.eosOutputBfr_.hOutputEvent] ++ v
          ++ [Event.WaitForSingleObject r.1.eosOutputBfr_.hOutputEvent 500]) := by
    rw [log_trace, hv]
    simp
  have hsu : submitted ([Event.NvEncFlushEncoderQueue s.eosOutputBfr_.hOutputEvent] ++ v
      ++ [Event.WaitForSingleObject r.1.eosOutputBfr_.hOutputEvent 500]) = [] := by
    rw [submitted_append, submitted_append, k1v]
    rfl
  have hdu : drained ([Event.NvEncFlushEncoderQueue s.eosOutputBfr_.hOutputEvent] ++ v
      ++ [Event.WaitForSingleObject r.1.eosOutputBfr_.hOutputEvent 500])
      = s.encodeBufferQueue_.pendingSlots.map some := by
    rw [drained_append, drained_append, k2v]
    simp [drained, Event.drainedSlot]
  by_cases hw : env.WaitForSingleObject
      (r.1.log (Event.WaitForSingleObject r.1.eosOutputBfr_.hOutputEvent 500)).trace = true
  · exact ⟨r.1.log (Event.WaitForSingleObject r.1.eosOutputBfr_.hOutputEvent 500), r.2, _,
      by rw [hfl, if_neg (by simpa using hw)], hu, hsu, hdu, k3⟩
  · exact ⟨r.1.log (Event.WaitForSingleObject r.1.eosOutputBfr_.hOutputEvent 500),
      NV_ENC_ERR_GENERIC, _, by rw [hfl, if_pos hw], hu, hsu, hdu, k3⟩

/-- C2 (every capacity `C >= 1`, every frame of a session): let `p` be the object on which a
call of `encodeProcess` in a session started at `s0` calls `encodeFrame`, and count the
submissions and drains recorded since `s0`.  Never more than `C` submissions are undrained.
When exactly `C` are, so that no slot is free, `encodeFrame` first passes the oldest undrained
slot, slot `(drains mod C)`, to `ProcessOutput`; otherwise it drains nothing.  It then passes
the non-null slot `(submissions mod C)`, a slot of the pool, to `NvEncEncodeFrame`, and these
are all the calls it makes.  Afterwards the slots drained are still a prefix of the slots
submitted.  Its status is the backend's answer to the submission, and `encodeProcess` returns
the resulting object with `FBCAPTURE_STATUS_OK`, or with
`FBCAPTURE_STATUS_ENCODE_PICTURE_FAILED` when that answer is not `NV_ENC_SUCCESS`. -/
theorem encodeFrame_never_starved (env : Env) (s0 s p : NVEncoder) (texturePtr : Handle)
    (fullSavePath : String) (bitrate fps : Int) (needFlipping : Bool)
    (hC : 1 ≤ s0.encodeBufferCount_) (hs : Session env s0 s)
    (hp : atEncodeFrame env texturePtr fullSavePath bitrate fps s = some p) :
    (encodeFrame env p.encodeConfig_.width p.encodeConfig_.height
        p.encodeConfig_.inputFormat p).1.trace
      = p.trace
        ++ ((if (submitted (p.since s0)).length
                = (drained (p.since s0)).length + s0.encodeBufferCount_
              then [Event.ProcessOutput
                (some ((drained (p.since s0)).length % s0.encodeBufferCount_))]
              else [])
            ++ [Event.NvEncEncodeFrame
                (some ((submitted (p.since s0)).length % s0.encodeBufferCount_))
                p.encodeConfig_.width p.encodeConfig_.height]) ∧
      (submitted (p.since s0)).length % s0.encodeBufferCount_ < s0.encodeBufferCount_ ∧
      (drained (p.since s0)).length ≤ (submitted (p.since s0)).length ∧
      (submitted (p.since s0)).length
        ≤ (drained (p.since s0)).length + s0.encodeBufferCount_ ∧
      (∃ rest, submitted ((encodeFrame env p.encodeConfig_.width p.encodeConfig_.height
          p.encodeConfig_.inputFormat p).1.since s0)
        = drained ((encodeFrame env p.encodeConfig_.width p.encodeConfig_.height
          p.encodeConfig_.inputFormat p).1.since s0) ++ rest) ∧
      (encodeFrame env p.encodeConfig_.width p.encodeConfig_.height
          p.encodeConfig_.inputFormat p).2
        = env.NvEncEncodeFrame (encodeFrame env p.encodeConfig_.width p.encodeConfig_.height
          p.encodeConfig_.inputFormat p).1.trace ∧
      encodeProcess env texturePtr fullSavePath bitrate fps needFlipping s
        = (if (encodeFrame env p.encodeConfig_.width p.encodeConfig_.height
              p.encodeConfig_.inputFormat p).2 ≠ NV_ENC_SUCCESS
          then ((encodeFrame env p.encodeConfig_.width p.encodeConfig_.height
              p.encodeConfig_.inputFormat p).1, FBCAPTURE_STATUS_ENCODE_PICTURE_FAILED)
          else ((encodeFrame env p.encodeConfig_.width p.encodeConfig_.height
              p.encodeConfig_.inputFormat p).1, FBCAPTURE_STATUS_OK)) := by
  obtain ⟨ip, fp⟩ := (session_inv env s0 s hC hs).atEncodeFrame env texturePtr fullSavePath
    bitrate fps hC hp
  obtain ⟨c, hc, hst, hpc⟩ := atEncodeFrame_some env texturePtr fullSavePath bitrate fps s p hp
  obtain ⟨-, t, ht, -, hT⟩ := ip
  have hq := hT fp
  rw [since_of_eq p s0 t ht]
  obtain ⟨i1, i2⟩ := encodeFrame_inv env p.encodeConfig_.width p.encodeConfig_.height
    p.encodeConfig_.inputFormat p _ t hq
  obtain ⟨-, e2, -, -, -, -, -, -, -, -, -, -⟩ :=
    encodeFrame_step env p.encodeConfig_.width p.encodeConfig_.height
      p.encodeConfig_.inputFormat p hq.1
  obtain ⟨wf, cap, -, -, cnt, -⟩ := hq
  obtain ⟨-, wf2, -, -⟩ := wf
  refine ⟨i1, Nat.mod_lt _ hC, by omega, by omega, ?_, e2, ?_⟩
  · rw [since_of_eq _ s0 _ (by rw [i1, ht, List.append_assoc])]
    exact ⟨_, i2.2.2.2.2.2⟩
  · rw [encodeProcess_of_atCopy env texturePtr fullSavePath bitrate fps needFlipping s c hc,
      if_neg (by simpa using hst), ← hpc]

/-- Witness for C2: the second frame of the run `framesOK`, at capacity 1, where the only
slot is still pending when `encodeFrame` is called. -/
theorem encodeFrame_never_starved_witness :
    ∃ p, atEncodeFrame (envOK 1920 1080) 5 "out.h264" 1000000 30 (framesOK 1) = some p ∧
      submitted (p.since ready) = [some 0] ∧
      drained (p.since ready) = [] ∧
      (encodeFrame (envOK 1920 1080) p.encodeConfig_.width p.encodeConfig_.height
          p.encodeConfig_.inputFormat p).1.trace
        = p.trace ++ [Event.ProcessOutput (some 0), Event.NvEncEncodeFrame (some 0) 1920 1080] ∧
      encodeProcess (envOK 1920 1080) 5 "out.h264" 1000000 30 false (framesOK 1)
        = ((encodeFrame (envOK 1920 1080) p.encodeConfig_.width p.encodeConfig_.height
            p.encodeConfig_.inputFormat p).1, FBCAPTURE_STATUS_OK) := by
  have hp : atEncodeFrame (envOK 1920 1080) 5 "out.h264" 1000000 30 (framesOK 1)
      = some (copyReources (envOK 1920 1080) 1920 1080
          (createD3D11Resources (envOK 1920 1080) 5 (framesOK 1)).1).1 := rfl
  have h := encodeFrame_never_starved (envOK 1920 1080) ready (framesOK 1) _ 5 "out.h264"
    1000000 30 false (by decide)
    (Session.frame ready 5 "out.h264" 1000000 30 false (Session.start rfl)) hp
  have hsub : submitted ((copyReources (envOK 1920 1080) 1920 1080
      (createD3D11Resources (envOK 1920 1080) 5 (framesOK 1)).1).1.since ready) = [some 0] := by
    decide
  have hdr : drained ((copyReources (envOK 1920 1080) 1920 1080
      (createD3D11Resources (envOK 1920 1080) 5 (framesOK 1)).1).1.since ready) = [] := by
    decide
  refine ⟨_, hp, hsub, hdr, ?_, ?_⟩
  · rw [h.1, hsub, hdr]
    rfl
  · rw [h.2.2.2.2.2.2]
    rfl

/-- C3 (every capacity `C >= 1`, every number of frames): take a session started at `s0`, of
any number of calls of `encodeProcess`, that is initiated, and let `flushInputTextures` call
`flushEncoder` with a non-null end-of-stream event and the end-of-stream submission accepted.
Then `flushEncoder` returns, it submits nothing, and over the whole run since `s0` the slots
passed to `ProcessOutput` are exactly the slots passed to `NvEncEncodeFrame`, in the same
order, one drain for each submission; the queue is empty when `flushEncoder` returns, and
`flushInputTextures` goes on to `releaseEncodingResources` with that object. -/
theorem flushEncoder_drains_in_submission_order (env : Env) (s0 s : NVEncoder)
    (hC : 1 ≤ s0.encodeBufferCount_) (hs : Session env s0 s)
    (hinit : s.encodingInitiated_ = true)
    (heos : s.eosOutputBfr_.hOutputEvent ≠ 0)
    (hflush : env.NvEncFlushEncoderQueue
      (s.trace ++ [Event.NvEncFlushEncoderQueue s.eosOutputBfr_.hOutputEvent]) = NV_ENC_SUCCESS) :
    ∃ f nv, flushEncoder env { s with encodingInitiated_ := false } = some (f, nv) ∧
      submitted (f.since s0) = submitted (s.since s0) ∧
      drained (f.since s0) = submitted (f.since s0) ∧
      f.encodeBufferQueue_.pending = 0 ∧
      flushInputTextures env s
        = some ((releaseEncodingResources env f).1,
            if nv ≠ NV_ENC_SUCCESS then FBCAPTURE_STATUS_ENCODE_FLUSH_FAILED
            else (releaseEncodingResources env f).2) := by
  obtain ⟨-, t, ht, -, hT⟩ := session_inv env s0 s hC hs
  obtain ⟨wf, -, -, -, -, lst⟩ := hT hinit
  obtain ⟨f, nv, u, hfe, hfu, hsu, hdu, hpend⟩ :=
    flushEncoder_drains_queue env { s with encodingInitiated_ := false } wf heos hflush
  have hft : f.trace = s0.trace ++ (t ++ u) := by
    rw [hfu]
    show s.trace ++ u = _
    rw [ht, List.append_assoc]
  have hdu2 : drained u = s.encodeBufferQueue_.pendingSlots.map some := hdu
  refine ⟨f, nv, hfe, ?_, ?_, hpend, flushInputTextures_eq env s f nv hfe⟩
  · rw [since_of_eq f s0 _ hft, since_of_eq s s0 t ht, submitted_append, hsu, List.append_nil]
  · rw [since_of_eq f s0 _ hft, submitted_append, drained_append, hsu, hdu2, List.append_nil,
      ← lst]

/-- Witness for C3: the run `framesOK 3`, three frames from `ready`, followed by the flush. -/
theorem flushEncoder_drains_in_submission_order_witness :
    ∃ f nv, flushEncoder (envOK 1920 1080) { framesOK 3 with encodingInitiated_ := false }
        = some (f, nv) ∧
      submitted (f.since ready) = [some 0, some 0, some 0] ∧
      drained (f.since ready) = [some 0, some 0, some 0] ∧
      f.encodeBufferQueue_.pending = 0 := by
  obtain ⟨f, nv, h1, h2, h3, h4, -⟩ := flushEncoder_drains_in_submission_order
    (envOK 1920 1080) ready (framesOK 3) (by decide)
    (Session.frame (framesOK 2) 5 "out.h264" 1000000 30 false
      (Session.frame (framesOK 1) 5 "out.h264" 1000000 30 false
        (Session.frame ready 5 "out.h264" 1000000 30 false (Session.start rfl))))
    (by decide) (by decide) (by decide)
  have hsub : submitted ((framesOK 3).since ready) = [some 0, some 0, some 0] := by decide
  exact ⟨f, nv, h1, h2.trans hsub, h3.trans (h2.trans hsub), h4⟩

end FBCapture.Video
